import Mathlib

/-!
# Meta bridge connector: table synchronisation and outbound delivery

A shallow embedding of `pkg/connector/client.go` (the `MetaClient` methods
`handleMetaEventLoop`, `handleMetaEvent`, `senderFromID`, `handleTable`,
`insertMessage` and `HandleMatrixMessage`) and of the last-read timestamp of
`database/userportal.go` (`GetLastReadTS`, `SetLastReadTS`).

Conventions of the embedding

* Go `int64` / `int` values are `Int`; no arithmetic is performed on them by
  the embedded code, so no wrap-around can occur.
* A Go `error` is `Option GoError` (`none` is `nil`); a Go pointer result is
  an `Option`.
* The collaborators reached through the `MetaClient` fields (`m.client`,
  `m.messageConverter`, `m.Main.Bridge`, the `ids` package and
  `tbl.WrapMessages`) are not part of the embedded file.  They are taken as
  the fields of `MetaClient σ`, acting on an arbitrary world state `σ`.
* Every call to a collaborator is recorded, oldest first, so that statements
  about which calls are made (and in which order) can be expressed.
* Logging statements of `HandleMatrixMessage` carry no control flow and are
  left out; those of `handleTable` are kept, because three of its loops
  consist of a log statement only.
* The lazily evaluated `LogContext` decorators of the emitted events are left
  out.
* A function literal stored in an event is the record of the values it
  captures, run by a separate function; a loop variable is captured per
  iteration.
* The channel read by the worker loop is the list of the items received, in
  arrival order.
* The table `user_portal` is a function from its key to the stored
  `last_read_ts`; the effect of a statement is read off its SQL text.
-/

namespace Meta

/-! ## Errors -/

/-- Go error values.  `ErrPleaseReloadPage` and `ErrTokenInvalidated` are the
two package-level sentinels tested by `HandleMatrixMessage`; `errorString s`
is `errors.New(s)` or a `fmt.Errorf` without `%w`; `wrapError p e` is
`fmt.Errorf(p + "%w", e)`; `NumError` is `*strconv.NumError`. -/
inductive GoError where
  | ErrPleaseReloadPage
  | ErrTokenInvalidated
  | errorString (s : String)
  | wrapError (pfx : String) (err : GoError)
  | NumError (Func : String) (Num : String) (Err : GoError)
  deriving DecidableEq

/-- The chain walk of `errors.Is` on a non-nil error. -/
def GoError.Is : GoError → GoError → Bool
  | .wrapError p e, target => (GoError.wrapError p e == target) || e.Is target
  | .NumError f n e, target => (GoError.NumError f n e == target) || e.Is target
  | e, target => e == target

/-- Go `errors.Is(err, target)`: false on a nil error. -/
def errorsIs (err : Option GoError) (target : GoError) : Bool :=
  match err with
  | none => false
  | some e => e.Is target

/-- Go `strconv.ErrSyntax`. -/
def ErrSyntax : GoError := .errorString "invalid syntax"

/-- Go `strconv.ErrRange`. -/
def ErrRange : GoError := .errorString "value out of range"

/-! ## `strconv` -/

/-- The digit loop of Go `strconv.ParseUint` in base 10 with 64 bits, from the
accumulated value `n`: the bytes are read from left to right; a byte that is
not an ASCII digit ends the loop with `ErrSyntax`, a value that leaves the
`uint64` range ends it with `ErrRange`, whichever comes first. -/
def parseDigits : List Char → Nat → Except GoError Nat
  | [], n => .ok n
  | c :: cs, n =>
    if !c.isDigit then .error ErrSyntax
    else if n ≥ 1844674407370955162 then .error ErrRange
    else if n * 10 + (c.toNat - 48) > 18446744073709551615 then .error ErrRange
    else parseDigits cs (n * 10 + (c.toNat - 48))

/-- Go `strconv.Atoi` on a platform with 64-bit `int`: an optional sign, then
at least one ASCII digit, the value within the `int64` range.  The error is
the `*NumError` of the first failure met while reading from left to right. -/
def Atoi (s : String) : Except GoError Int :=
  let cs := s.toList
  let neg := cs.head? == some '-'
  let body := if cs.head? == some '-' || cs.head? == some '+' then cs.tail else cs
  if body.isEmpty then
    .error (.NumError "Atoi" s ErrSyntax)
  else
    match parseDigits body 0 with
    | .error e => .error (.NumError "Atoi" s e)
    | .ok n =>
      if neg then
        if n ≤ 9223372036854775808 then .ok (-(n : Int))
        else .error (.NumError "Atoi" s ErrRange)
      else
        if n ≤ 9223372036854775807 then .ok (n : Int)
        else .error (.NumError "Atoi" s ErrRange)

/-- Go `strconv.FormatInt(i, 10)`. -/
def FormatInt (i : Int) : String := toString i

/-! ## Normalised identifiers and chat model (`networkid`, `bridgev2`) -/

/-- Go `networkid.PortalKey`. -/
structure PortalKey where
  ID : String
  Receiver : String := ""
  deriving DecidableEq

/-- Go `bridgev2.EventSender`. -/
structure EventSender where
  IsFromMe : Bool
  Sender : String
  SenderLogin : String
  deriving DecidableEq

/-- Go `event.Membership`, restricted to the two values used. -/
inductive Membership where
  | MembershipJoin
  | MembershipLeave
  deriving DecidableEq

/-- Go `database.RoomType`. -/
inductive RoomType where
  | RoomTypeDefault
  | RoomTypeDM
  | RoomTypeGroupDM
  | RoomTypeSpace
  deriving DecidableEq

/-- Go `bridgev2.ChatMember`. -/
structure ChatMember where
  EventSender : EventSender
  Membership : Membership
  Nickname : String := ""
  deriving DecidableEq

/-- Go `bridgev2.ChatMemberList`. -/
structure ChatMemberList where
  Members : List ChatMember
  deriving DecidableEq

/-- Go `bridgev2.ChatInfo`; a nil pointer field is `none`.  `Type_` is the Go
field `Type`. -/
structure ChatInfo where
  Name : Option String := none
  Topic : Option String := none
  Members : Option ChatMemberList := none
  Type_ : Option RoomType := none
  deriving DecidableEq

/-- Go `bridgev2.ChatInfoChange`. -/
structure ChatInfoChange where
  ChatInfo : Option ChatInfo := none
  MemberChanges : Option ChatMemberList := none
  deriving DecidableEq

/-- Go `bridgev2.UserInfo`, restricted to the field that is set. -/
structure UserInfo where
  Name : Option String
  deriving DecidableEq

/-- Go `bridgev2.Portal`, restricted to the fields that are read. -/
structure Portal where
  PortalKey : PortalKey
  MXID : String
  deriving DecidableEq

/-- Go `bridgev2.UserLogin`, restricted to the fields that are read:
`login.ID` and `login.User.MXID`. -/
structure UserLogin where
  ID : String
  UserMXID : String
  deriving DecidableEq

/-- Go `time.Time`, as far as the embedded code builds one. -/
inductive Time where
  | zero
  | unixMilli (ms : Int)
  deriving DecidableEq

/-! ## The remote table (`messagix/table`) -/

/-- Modelled from the spec: the enumeration `table.ThreadType`, whose
declaration is not in the sources.  The code compares a row's type with the
two distinct constants `ONE_TO_ONE` and `GROUP_THREAD`; every other value is
`other`. -/
inductive ThreadType where
  | ONE_TO_ONE
  | GROUP_THREAD
  | other (code : Int)
  deriving DecidableEq

/-- Row of `LSDeleteThenInsertContact`. -/
structure LSDeleteThenInsertContact where
  Id : Int
  Name : String
  deriving DecidableEq

/-- Row of `LSVerifyContactRowExists`. -/
structure LSVerifyContactRowExists where
  ContactId : Int
  Name : String
  deriving DecidableEq

/-- Row of `LSDeleteThenInsertThread`. -/
structure LSDeleteThenInsertThread where
  ThreadKey : Int
  ThreadType : ThreadType
  ThreadName : String
  ThreadDescription : String
  deriving DecidableEq

/-- Row of `LSAddParticipantIdToGroupThread`. -/
structure LSAddParticipantIdToGroupThread where
  ThreadKey : Int
  ContactId : Int
  Nickname : String
  deriving DecidableEq

/-- Row of `LSRemoveParticipantFromThread`. -/
structure LSRemoveParticipantFromThread where
  ThreadKey : Int
  ParticipantId : Int
  deriving DecidableEq

/-- Row of `LSVerifyThreadExists`. -/
structure LSVerifyThreadExists where
  ThreadKey : Int
  ThreadType : ThreadType
  deriving DecidableEq

/-- Row of `LSUpdateThreadMuteSetting`. -/
structure LSUpdateThreadMuteSetting where
  ThreadKey : Int
  deriving DecidableEq

/-- Row of `LSSyncUpdateThreadName`. -/
structure LSSyncUpdateThreadName where
  ThreadKey : Int
  ThreadName : String
  deriving DecidableEq

/-- Element of the first result of `WrapMessages`; `ThreadKey` is
`Range.ThreadKey`. -/
structure UpsertMessages where
  ThreadKey : Int
  deriving DecidableEq

/-- Go `table.WrappedMessage`, restricted to the fields that are read. -/
structure WrappedMessage where
  ThreadKey : Int
  MessageId : String
  SenderId : Int
  deriving DecidableEq

/-- Row of `LSUpsertReaction`. -/
structure LSUpsertReaction where
  ThreadKey : Int
  MessageId : String
  ActorId : Int
  Reaction : String
  deriving DecidableEq

/-- Row of `LSDeleteReaction`. -/
structure LSDeleteReaction where
  ThreadKey : Int
  MessageId : String
  ActorId : Int
  deriving DecidableEq

/-- Row of `LSReplaceOptimsiticMessage` (spelling of the source). -/
structure LSReplaceOptimsiticMessage where
  OfflineThreadingId : String
  MessageId : String
  deriving DecidableEq

/-- Row of `LSMarkOptimisticMessageFailed`. -/
structure LSMarkOptimisticMessageFailed where
  OTID : String
  Message : String
  deriving DecidableEq

/-- Row of `LSHandleFailedTask`. -/
structure LSHandleFailedTask where
  OTID : String
  Message : String
  deriving DecidableEq

/-- Go `table.LSTable`, restricted to the row lists that `client.go` reads. -/
structure LSTable where
  LSDeleteThenInsertContact : List LSDeleteThenInsertContact := []
  LSVerifyContactRowExists : List LSVerifyContactRowExists := []
  LSDeleteThenInsertThread : List LSDeleteThenInsertThread := []
  LSAddParticipantIdToGroupThread : List LSAddParticipantIdToGroupThread := []
  LSRemoveParticipantFromThread : List LSRemoveParticipantFromThread := []
  LSVerifyThreadExists : List LSVerifyThreadExists := []
  LSUpdateThreadMuteSetting : List LSUpdateThreadMuteSetting := []
  LSSyncUpdateThreadName : List LSSyncUpdateThreadName := []
  LSUpsertReaction : List LSUpsertReaction := []
  LSDeleteReaction : List LSDeleteReaction := []
  LSReplaceOptimsiticMessage : List LSReplaceOptimsiticMessage := []
  LSMarkOptimisticMessageFailed : List LSMarkOptimisticMessageFailed := []
  LSHandleFailedTask : List LSHandleFailedTask := []
  deriving DecidableEq

/-! ## Tasks and outgoing Matrix messages -/

/-- Go `socket.Task`: either the `CreateThreadTask` built in `client.go`, or a
task produced by the message converter. -/
inductive Task where
  | CreateThreadTask (ThreadFBID : Int) (ForceUpsert UseOpenMessengerTransport SyncGroup
      MetadataOnly PreviewOnly : Int)
  | converted (label : String)
  deriving DecidableEq

/-- Go `event.MessageEventContent`, restricted to the fields that matter. -/
structure MessageEventContent where
  MsgType : String
  Body : String
  deriving DecidableEq

/-- Go `event.MsgNotice`. -/
def MsgNotice : String := "m.notice"

/-- Dynamic type of `msg.Event.Content.Parsed`: either a non-nil
`*event.MessageEventContent`, or a value of another type. -/
inductive ParsedContent where
  | Message (content : MessageEventContent)
  | Other (goType : String)
  deriving DecidableEq

/-- Go `event.Event`, restricted to the fields that are read. -/
structure Event where
  ID : String
  Sender : String
  Parsed : ParsedContent
  deriving DecidableEq

/-- Go `bridgev2.MatrixMessage`. -/
structure MatrixMessage where
  Event : Event
  Portal : Portal
  deriving DecidableEq

/-- Go `database.Message`, restricted to the fields that are set. -/
structure Message where
  ID : String
  MXID : String
  Room : PortalKey
  SenderID : String
  Timestamp : Time
  deriving DecidableEq

/-- Go `bridgev2.MatrixMessageResponse`. -/
structure MatrixMessageResponse where
  DB : Message
  deriving DecidableEq

/-! ## Events queued to the host (`bridgev2`, `simplevent`) -/

/-- Go `bridgev2.RemoteEventType`, restricted to the values used. -/
inductive RemoteEventType where
  | RemoteEventChatResync
  | RemoteEventChatInfoChange
  | RemoteEventMessage
  | RemoteEventReaction
  | RemoteEventReactionRemove
  deriving DecidableEq

/-- Go `simplevent.EventMeta`, restricted to the fields that are set. -/
structure EventMeta where
  Type_ : RemoteEventType
  PortalKey : PortalKey
  CreatePortal : Bool := false
  deriving DecidableEq

/-- The function literal of `client.go` lines 295-317, as the values it
captures: the row of the iteration and the `roomType` and `members` variables
declared in the loop body.  It is run by `GetChatInfoFunc.call`. -/
structure GetChatInfoFunc where
  thread : LSVerifyThreadExists
  roomType : RoomType
  members : ChatMemberList
  deriving DecidableEq

/-- Go `simplevent.ChatResync`. -/
structure ChatResync where
  EventMeta : EventMeta
  ChatInfo : Option ChatInfo := none
  GetChatInfoFunc : Option GetChatInfoFunc := none
  deriving DecidableEq

/-- Go `simplevent.ChatInfoChange`. -/
structure ChatInfoChangeEvent where
  EventMeta : EventMeta
  ChatInfoChange : Option ChatInfoChange := none
  deriving DecidableEq

/-- Go `bridgev2.SimpleRemoteEvent[T]`, restricted to the fields that are set.
`ConvertMessageFunc` tells whether the conversion callback (which only calls
`m.messageConverter.ToMatrix`) is set. -/
structure SimpleRemoteEvent where
  Type_ : RemoteEventType
  ID : String := ""
  Sender : EventSender
  PortalKey : PortalKey
  Data : Option WrappedMessage := none
  CreatePortal : Bool := false
  TargetMessage : String := ""
  EmojiID : String := ""
  Emoji : String := ""
  ConvertMessageFunc : Bool := false
  deriving DecidableEq

/-- The values passed to `QueueRemoteEvent`. -/
inductive RemoteEvent where
  | ChatResync (evt : ChatResync)
  | ChatInfoChange (evt : ChatInfoChangeEvent)
  | Simple (evt : SimpleRemoteEvent)
  deriving DecidableEq

/-! ## Calls to collaborators -/

/-- Go `zerolog.Level`, restricted to the levels used. -/
inductive Level where
  | Trace
  | Debug
  | Warn
  | Error
  deriving DecidableEq

/-- Value of a structured log field. -/
inductive LogValue where
  | int (i : Int)
  | str (s : String)
  | sender (e : EventSender)
  | err (e : GoError)
  | table (t : Option LSTable)
  deriving DecidableEq

/-- One call made by the client to a collaborator. -/
inductive Call where
  | Log (level : Level) (msg : String) (fields : List (String × LogValue))
  | GetGhostByID (id : String)
  | UpdateInfo (ghost : String) (info : UserInfo)
  | QueueRemoteEvent (login : String) (evt : RemoteEvent)
  | ToMeta (evt : Event) (content : MessageEventContent) (relaybotFormatted : Bool)
      (threadID : Int) (portal : Portal)
  | WaitUntilCanSendMessages (timeoutSeconds : Nat)
  | ExecuteTasks (tasks : List Task)
  | BridgeStateSend (stateEvent : String)
  deriving DecidableEq

/-- Go `MetaClient` together with the collaborators it reaches, each acting on
the world state `σ`.

* `WaitUntilCanSendMessages`, `ExecuteTasks`: methods of `m.client`;
* `ToMeta`: method of `m.messageConverter`, returning `(tasks, otid, err)`;
* `GetGhostByID`, `UpdateInfo`, `QueueRemoteEvent`: `m.Main.Bridge` and the
  ghost it returns (a ghost is identified by its user id);
* `MakeUserID`, `MakeUserLoginID`, `MakePortalID`: the `ids` package;
* `WrapMessages`: the method of `table.LSTable`; it is called on the table
  pointer and may change the table, so it returns its two results together
  with the table as it leaves it;
* `BridgeStateSend`: `m.login.BridgeState.Send`, given the `StateEvent` of the
  bridge state sent. -/
structure MetaClient (σ : Type) where
  login : UserLogin
  WaitUntilCanSendMessages : σ → Nat → Option GoError × σ
  ExecuteTasks : σ → List Task → (Option LSTable × Option GoError) × σ
  ToMeta : σ → Event → MessageEventContent → Bool → Int → Portal →
    (List Task × Int × Option GoError) × σ
  GetGhostByID : σ → String → Option GoError × σ
  UpdateInfo : σ → String → UserInfo → σ
  QueueRemoteEvent : σ → UserLogin → RemoteEvent → σ
  MakeUserID : Int → String
  MakeUserLoginID : Int → String
  MakePortalID : Int → String
  WrapMessages : LSTable → (List UpsertMessages × List WrappedMessage) × LSTable
  BridgeStateSend : σ → String → σ

/-- World state reached and calls made so far, oldest call first. -/
structure Run (σ : Type) where
  state : σ
  calls : List Call

/-- A log statement. -/
def Run.log {σ : Type} (r : Run σ) (level : Level) (msg : String)
    (fields : List (String × LogValue)) : Run σ :=
  { r with calls := r.calls ++ [Call.Log level msg fields] }

/-- The statement `m.Main.Bridge.QueueRemoteEvent(m.login, evt)`. -/
def Run.queue {σ : Type} (m : MetaClient σ) (r : Run σ) (evt : RemoteEvent) : Run σ :=
  { state := m.QueueRemoteEvent r.state m.login evt
    calls := r.calls ++ [Call.QueueRemoteEvent m.login.ID evt] }

/-! ## `senderFromID` and `handleTable` -/

/-- Go `MetaClient.senderFromID` (lines 131-137). -/
def senderFromID {σ : Type} (m : MetaClient σ) (id : Int) : EventSender :=
  { IsFromMe := m.MakeUserLoginID id == m.login.ID
    Sender := m.MakeUserID id
    SenderLogin := m.MakeUserLoginID id }

/-- The first entry of `members`, built at lines 159-170 and 259-270. -/
def selfMember {σ : Type} (m : MetaClient σ) : ChatMember :=
  { EventSender := { IsFromMe := true, Sender := m.login.ID, SenderLogin := m.login.ID }
    Membership := .MembershipJoin }

/-- Lines 172-181 and 272-281: the room type and the member list derived from
the thread type and the thread key. -/
def roomTypeAndMembers {σ : Type} (m : MetaClient σ) (threadType : ThreadType)
    (threadKey : Int) : RoomType × ChatMemberList :=
  let members : ChatMemberList := { Members := [selfMember m] }
  let roomType := RoomType.RoomTypeDefault
  if threadType = ThreadType.ONE_TO_ONE then
    (RoomType.RoomTypeDM,
      { Members := members.Members ++
          [{ EventSender := senderFromID m threadKey, Membership := .MembershipJoin }] })
  else if threadType = ThreadType.GROUP_THREAD then
    (RoomType.RoomTypeGroupDM, members)
  else
    (roomType, members)

/-- Body of the loop over `tbl.LSDeleteThenInsertContact` (lines 142-144). -/
def contactInsertStep {σ : Type} (r : Run σ) (contact : LSDeleteThenInsertContact) : Run σ :=
  r.log .Warn "LSDeleteThenInsertContact" [("contact_id", .int contact.Id)]

/-- Body of the loop over `tbl.LSVerifyContactRowExists` (lines 145-155). -/
def contactVerifyStep {σ : Type} (m : MetaClient σ) (r : Run σ)
    (contact : LSVerifyContactRowExists) : Run σ :=
  let r := r.log .Warn "LSVerifyContactRowExists" [("contact_id", .int contact.ContactId)]
  let ghost := m.MakeUserID contact.ContactId
  match m.GetGhostByID r.state ghost with
  | (some err, s1) =>
    Run.log { state := s1, calls := r.calls ++ [Call.GetGhostByID ghost] } .Error
      "Failed to get ghost" [("error", .err err), ("contact_id", .int contact.ContactId)]
  | (none, s1) =>
    { state := m.UpdateInfo s1 ghost { Name := some contact.Name }
      calls := r.calls ++
        [Call.GetGhostByID ghost, Call.UpdateInfo ghost { Name := some contact.Name }] }

/-- Body of the loop over `tbl.LSDeleteThenInsertThread` (lines 156-202). -/
def threadInsertStep {σ : Type} (m : MetaClient σ) (r : Run σ)
    (thread : LSDeleteThenInsertThread) : Run σ :=
  let r := r.log .Warn "LSDeleteThenInsertThread" [("thread_id", .int thread.ThreadKey)]
  let tm := roomTypeAndMembers m thread.ThreadType thread.ThreadKey
  r.queue m (.ChatResync
    { EventMeta :=
        { Type_ := .RemoteEventChatResync
          PortalKey := { ID := m.MakePortalID thread.ThreadKey }
          CreatePortal := true }
      ChatInfo := some
        { Name := some thread.ThreadName
          Topic := some thread.ThreadDescription
          Members := some tm.2
          Type_ := some tm.1 } })

/-- Body of the loop over `tbl.LSAddParticipantIdToGroupThread` (lines 203-229). -/
def participantAddStep {σ : Type} (m : MetaClient σ) (r : Run σ)
    (participant : LSAddParticipantIdToGroupThread) : Run σ :=
  let r := r.log .Warn "LSAddParticipantIdToGroupThread"
    [("thread_id", .int participant.ThreadKey), ("contact_id", .int participant.ContactId)]
  r.queue m (.ChatInfoChange
    { EventMeta :=
        { Type_ := .RemoteEventChatInfoChange
          PortalKey := { ID := m.MakePortalID participant.ThreadKey } }
      ChatInfoChange := some
        { MemberChanges := some
            { Members :=
                [{ EventSender := senderFromID m participant.ContactId
                   Nickname := participant.Nickname
                   Membership := .MembershipJoin }] } } })

/-- Body of the loop over `tbl.LSRemoveParticipantFromThread` (lines 230-255). -/
def participantRemoveStep {σ : Type} (m : MetaClient σ) (r : Run σ)
    (participant : LSRemoveParticipantFromThread) : Run σ :=
  let r := r.log .Warn "LSRemoveParticipantFromThread"
    [("thread_id", .int participant.ThreadKey), ("contact_id", .int participant.ParticipantId)]
  r.queue m (.ChatInfoChange
    { EventMeta :=
        { Type_ := .RemoteEventChatInfoChange
          PortalKey := { ID := m.MakePortalID participant.ThreadKey } }
      ChatInfoChange := some
        { MemberChanges := some
            { Members :=
                [{ EventSender := senderFromID m participant.ParticipantId
                   Membership := .MembershipLeave }] } } })

/-- Body of the loop over `tbl.LSVerifyThreadExists` (lines 256-319). -/
def threadVerifyStep {σ : Type} (m : MetaClient σ) (r : Run σ)
    (thread : LSVerifyThreadExists) : Run σ :=
  let r := r.log .Warn "LSVerifyThreadExists" [("thread_id", .int thread.ThreadKey)]
  let tm := roomTypeAndMembers m thread.ThreadType thread.ThreadKey
  r.queue m (.ChatResync
    { EventMeta :=
        { Type_ := .RemoteEventChatResync
          PortalKey := { ID := m.MakePortalID thread.ThreadKey }
          CreatePortal := true }
      GetChatInfoFunc := some { thread := thread, roomType := tm.1, members := tm.2 } })

/-- Running the function literal of lines 295-317 on a portal: the result
`(info, err)`, the world state reached and the calls made. -/
def GetChatInfoFunc.call {σ : Type} (m : MetaClient σ) (f : GetChatInfoFunc) (s : σ)
    (portal : Portal) : (Option ChatInfo × Option GoError) × Run σ :=
  let info : ChatInfo := { Type_ := some f.roomType, Members := some f.members }
  if portal.MXID = "" then
    let task := Task.CreateThreadTask f.thread.ThreadKey 0 0 1 0 0
    match m.ExecuteTasks s [task] with
    | ((resp, some err), s1) =>
      ((some info, none),
        Run.log
          (Run.log { state := s1, calls := [Call.ExecuteTasks [task]] } .Error
            "Failed to request more thread info" [("error", .err err)])
          .Debug "Requested more thread info" [("response", .table resp)])
    | ((resp, none), s1) =>
      ((some info, none),
        Run.log { state := s1, calls := [Call.ExecuteTasks [task]] } .Debug
          "Requested more thread info" [("response", .table resp)])
  else
    ((some info, none), { state := s, calls := [] })

/-- Body of the loop over `tbl.LSUpdateThreadMuteSetting` (lines 320-322). -/
def muteStep {σ : Type} (r : Run σ) (mute : LSUpdateThreadMuteSetting) : Run σ :=
  r.log .Warn "LSUpdateThreadMuteSetting" [("thread_id", .int mute.ThreadKey)]

/-- Body of the loop over `tbl.LSSyncUpdateThreadName` (lines 323-343). -/
def threadRenameStep {σ : Type} (m : MetaClient σ) (r : Run σ)
    (thread : LSSyncUpdateThreadName) : Run σ :=
  let r := r.log .Warn "LSUpdateThreadName" [("thread_id", .int thread.ThreadKey)]
  r.queue m (.ChatInfoChange
    { EventMeta :=
        { Type_ := .RemoteEventChatInfoChange
          PortalKey := { ID := m.MakePortalID thread.ThreadKey } }
      ChatInfoChange := some { ChatInfo := some { Name := some thread.ThreadName } } })

/-- Body of the loop over the upserts of `tbl.WrapMessages()` (lines 346-348). -/
def upsertStep {σ : Type} (r : Run σ) (upsert : UpsertMessages) : Run σ :=
  r.log .Trace "UpsertMessages" [("thread_id", .int upsert.ThreadKey)]

/-- Go `MetaClient.insertMessage` (lines 392-419). -/
def insertMessage {σ : Type} (m : MetaClient σ) (r : Run σ) (msg : WrappedMessage) : Run σ :=
  let r := r.log .Warn "Inserting message"
    [("sender_id", .str (FormatInt msg.SenderId)), ("login_id", .str m.login.ID)]
  let sender := senderFromID m msg.SenderId
  let r := r.log .Warn "Sender" [("sender", .sender sender)]
  r.queue m (.Simple
    { Type_ := .RemoteEventMessage
      ID := msg.MessageId
      Sender := sender
      PortalKey := { ID := FormatInt msg.ThreadKey }
      Data := some msg
      CreatePortal := true
      ConvertMessageFunc := true })

/-- Body of the loop over the inserts of `tbl.WrapMessages()` (lines 349-352). -/
def insertStep {σ : Type} (m : MetaClient σ) (r : Run σ) (msg : WrappedMessage) : Run σ :=
  let r := r.log .Trace "InsertMessage"
    [("thread_id", .int msg.ThreadKey), ("message_id", .str msg.MessageId)]
  insertMessage m r msg

/-- Body of the loop over `tbl.LSUpsertReaction` (lines 354-372). -/
def reactionUpsertStep {σ : Type} (m : MetaClient σ) (r : Run σ)
    (reaction : LSUpsertReaction) : Run σ :=
  let r := r.log .Warn "LSUpsertReaction" [("message_id", .str reaction.MessageId)]
  r.queue m (.Simple
    { Type_ := .RemoteEventReaction
      Sender := senderFromID m reaction.ActorId
      PortalKey := { ID := FormatInt reaction.ThreadKey }
      TargetMessage := reaction.MessageId
      EmojiID := "reaction"
      Emoji := reaction.Reaction })

/-- Body of the loop over `tbl.LSDeleteReaction` (lines 374-389). -/
def reactionDeleteStep {σ : Type} (m : MetaClient σ) (r : Run σ)
    (reaction : LSDeleteReaction) : Run σ :=
  let r := r.log .Warn "LSDeleteReaction" [("message_id", .str reaction.MessageId)]
  r.queue m (.Simple
    { Type_ := .RemoteEventReactionRemove
      Sender := senderFromID m reaction.ActorId
      PortalKey := { ID := FormatInt reaction.ThreadKey }
      TargetMessage := reaction.MessageId
      EmojiID := "reaction" })

/-- Go `MetaClient.handleTable` (lines 139-390): the twelve loops, in the order
of the source, each threading the world state and the calls made so far.  The
loops that follow the call `tbl.WrapMessages()` of line 345 read the row lists
of the table as that call leaves it. -/
def handleTable {σ : Type} (m : MetaClient σ) (s : σ) (tbl : LSTable) : Run σ :=
  let r : Run σ := { state := s, calls := [] }
  let r := tbl.LSDeleteThenInsertContact.foldl contactInsertStep r
  let r := tbl.LSVerifyContactRowExists.foldl (contactVerifyStep m) r
  let r := tbl.LSDeleteThenInsertThread.foldl (threadInsertStep m) r
  let r := tbl.LSAddParticipantIdToGroupThread.foldl (participantAddStep m) r
  let r := tbl.LSRemoveParticipantFromThread.foldl (participantRemoveStep m) r
  let r := tbl.LSVerifyThreadExists.foldl (threadVerifyStep m) r
  let r := tbl.LSUpdateThreadMuteSetting.foldl muteStep r
  let r := tbl.LSSyncUpdateThreadName.foldl (threadRenameStep m) r
  let wrapped := m.WrapMessages tbl
  let tbl := wrapped.2
  let r := wrapped.1.1.foldl upsertStep r
  let r := wrapped.1.2.foldl (insertStep m) r
  let r := tbl.LSUpsertReaction.foldl (reactionUpsertStep m) r
  let r := tbl.LSDeleteReaction.foldl (reactionDeleteStep m) r
  r

/-! ## `HandleMatrixMessage` -/

/-- How a Go function call ends: it returns its pair of results, or it aborts
with `panic`. -/
inductive Outcome (α : Type) where
  | returned (value : Option α) (err : Option GoError)
  | panicked (msg : String)
  deriving DecidableEq

/-- Result of running `HandleMatrixMessage`: how the call ended, the world
state reached and the calls made to the collaborators. -/
structure SendResult (σ : Type) where
  outcome : Outcome MatrixMessageResponse
  run : Run σ

/-- The variables of `HandleMatrixMessage` that the retry loop reads and
writes (`resp`, `err`, `retries`), with the world state and the calls made. -/
structure LoopVars (σ : Type) where
  resp : Option LSTable
  err : Option GoError
  retries : Nat
  run : Run σ

/-- The loop `for retries < 5` of lines 536-548.  The first argument bounds the
number of iterations left; each iteration that does not `break` increments
`retries`, so `5` is enough from `retries = 0` (see `retryLoop_fuel`). -/
def retryLoop {σ : Type} (m : MetaClient σ) (tasks : List Task) :
    Nat → LoopVars σ → LoopVars σ
  | 0, v => v
  | fuel + 1, v =>
    if v.retries < 5 then
      match m.WaitUntilCanSendMessages v.run.state 15 with
      | (some err, s1) =>
        retryLoop m tasks fuel
          { resp := v.resp, err := some err, retries := v.retries + 1
            run := { state := s1, calls := v.run.calls ++ [Call.WaitUntilCanSendMessages 15] } }
      | (none, s1) =>
        match m.ExecuteTasks s1 tasks with
        | ((resp, none), s2) =>
          { resp := resp, err := none, retries := v.retries
            run := { state := s2
                     calls := v.run.calls ++
                       [Call.WaitUntilCanSendMessages 15, Call.ExecuteTasks tasks] } }
        | ((resp, some err), s2) =>
          retryLoop m tasks fuel
            { resp := resp, err := some err, retries := v.retries + 1
              run := { state := s2
                       calls := v.run.calls ++
                         [Call.WaitUntilCanSendMessages 15, Call.ExecuteTasks tasks] } }
    else v

/-- The loop of lines 553-557: the message id of the last row whose
`OfflineThreadingId` is the OTID string, or the empty string. -/
def replacedMessageID (rows : List LSReplaceOptimsiticMessage) (otidStr : String) : String :=
  rows.foldl (fun msgID replace =>
    if replace.OfflineThreadingId = otidStr then replace.MessageId else msgID) ""

/-- Lines 551-575: the value of `msgID` after the inspection of the response,
and the error with which the function returns from inside it, if it does. -/
def inspectResponse (resp : Option LSTable) (err : Option GoError) (otidStr : String) :
    String × Option GoError :=
  match resp, err with
  | some resp, none =>
    let msgID := replacedMessageID resp.LSReplaceOptimsiticMessage otidStr
    if msgID = "" then
      match resp.LSMarkOptimisticMessageFailed.find? (fun failed => failed.OTID == otidStr) with
      | some failed =>
        (msgID, some (.errorString ("sending message failed: " ++ failed.Message)))
      | none =>
        match resp.LSHandleFailedTask.find? (fun failed => failed.OTID == otidStr) with
        | some failed =>
          (msgID, some (.errorString ("sending message failed: " ++ failed.Message)))
        | none => (msgID, none)
    else (msgID, none)
  | _, _ => ("", none)

/-- Go `MetaClient.HandleMatrixMessage` (lines 482-605). -/
def HandleMatrixMessage {σ : Type} (m : MetaClient σ) (s : σ) (msg : MatrixMessage) :
    SendResult σ :=
  match msg.Event.Parsed with
  | .Other _ =>
    { outcome := .returned none
        (some (.errorString "unexpected parsed content type: *event.MessageEventContent"))
      run := { state := s, calls := [] } }
  | .Message content =>
    if content.MsgType = MsgNotice then
      { outcome := .returned none none, run := { state := s, calls := [] } }
    else
      match Atoi msg.Portal.PortalKey.ID with
      | .error err =>
        { outcome := .returned none (some (.wrapError "failed to parse thread ID: " err))
          run := { state := s, calls := [] } }
      | .ok thread =>
        match m.ToMeta s msg.Event content false thread msg.Portal with
        | ((tasks, otid, err), s1) =>
          let r1 : Run σ :=
            { state := s1, calls := [Call.ToMeta msg.Event content false thread msg.Portal] }
          if errorsIs err .ErrPleaseReloadPage then
            { outcome := .panicked "unimplemented", run := r1 }
          else if errorsIs err .ErrTokenInvalidated then
            { outcome := .panicked "unimplemented", run := r1 }
          else
            match err with
            | some e => { outcome := .returned none (some e), run := r1 }
            | none =>
              let otidStr := FormatInt otid
              let v := retryLoop m tasks 5 { resp := none, err := none, retries := 0, run := r1 }
              match inspectResponse v.resp v.err otidStr with
              | (_, some rejected) => { outcome := .returned none (some rejected), run := v.run }
              | (msgID, none) =>
                if m.login.UserMXID ≠ msg.Event.Sender then
                  { outcome := .returned none
                      (some (.errorString
                        ("sender mismatch with user login: " ++ msg.Event.Sender)))
                    run := v.run }
                else
                  { outcome := .returned
                      (some { DB :=
                        { ID := msgID
                          MXID := msg.Event.ID
                          Room := { ID := msg.Portal.PortalKey.ID }
                          SenderID := m.login.ID
                          Timestamp := Time.zero } })
                      none
                    run := v.run }

/-! ## A concrete world, to run the code on explicit inputs -/

/-- Script of a concrete world: what the converter returns, what the `n`-th
readiness wait returns (counted from `0`), what a submission returns, which
ghost lookups fail, the wrapped messages of a table and the table that
`WrapMessages` leaves. -/
structure Script where
  convert : List Task × Int × Option GoError := ([Task.converted "send"], 7, none)
  wait : Nat → Option GoError := fun _ => none
  exec : Option LSTable × Option GoError := (some {}, none)
  ghost : String → Option GoError := fun _ => none
  wrap : List UpsertMessages × List WrappedMessage := ([], [])
  wrapTable : LSTable → LSTable := fun tbl => tbl

/-- The client living in the scripted world; the world state counts the
readiness waits made so far, and identifiers are mapped to their decimal
form. -/
def scripted (login : UserLogin) (sc : Script) : MetaClient Nat where
  login := login
  WaitUntilCanSendMessages := fun n _ => (sc.wait n, n + 1)
  ExecuteTasks := fun n _ => (sc.exec, n)
  ToMeta := fun n _ _ _ _ _ => (sc.convert, n)
  GetGhostByID := fun n id => (sc.ghost id, n)
  UpdateInfo := fun n _ _ => n
  QueueRemoteEvent := fun n _ _ => n
  MakeUserID := FormatInt
  MakeUserLoginID := FormatInt
  MakePortalID := FormatInt
  WrapMessages := fun tbl => (sc.wrap, sc.wrapTable tbl)
  BridgeStateSend := fun n _ => n

/-- The login used by the concrete examples. -/
def alice : UserLogin := { ID := "100", UserMXID := "@alice:example.org" }

/-- A text message sent by `sender` to the portal of thread 42. -/
def textFrom (sender : String) : MatrixMessage :=
  { Event := { ID := "$evt1", Sender := sender
               Parsed := .Message { MsgType := "m.text", Body := "hello" } }
    Portal := { PortalKey := { ID := "42" }, MXID := "!room:example.org" } }

/-- A notice sent by `sender` to the portal of thread 42. -/
def noticeFrom (sender : String) : MatrixMessage :=
  { Event := { ID := "$evt2", Sender := sender
               Parsed := .Message { MsgType := "m.notice", Body := "fyi" } }
    Portal := { PortalKey := { ID := "42" }, MXID := "!room:example.org" } }

/-- The `ToMeta` call made for `textFrom sender`. -/
def textCall (sender : String) : Call :=
  Call.ToMeta (textFrom sender).Event { MsgType := "m.text", Body := "hello" } false 42
    (textFrom sender).Portal

/-- Script of C3: the readiness wait times out on the first four attempts. -/
def flakyScript : Script :=
  { wait := fun n => if n < 4 then some (.errorString "timeout") else none }

/-- Response table holding one correlated rejection row. -/
def rejectedTable : LSTable :=
  { LSMarkOptimisticMessageFailed := [{ OTID := "7", Message := "blocked" }] }

/-- Response table holding a correlated rejection row and a correlated replace
row carrying a message id. -/
def overriddenTable : LSTable :=
  { LSReplaceOptimsiticMessage := [{ OfflineThreadingId := "7", MessageId := "mid.1" }]
    LSMarkOptimisticMessageFailed := [{ OTID := "7", Message := "blocked" }] }

/-- Response table holding three replace rows, the first two correlated with
the OTID 7. -/
def confirmedTable : LSTable :=
  { LSReplaceOptimsiticMessage :=
      [{ OfflineThreadingId := "7", MessageId := "mid.0" },
       { OfflineThreadingId := "7", MessageId := "mid.1" },
       { OfflineThreadingId := "8", MessageId := "mid.2" }] }

/-! ## The order of the spec for one table batch -/

/-- Calls made while the rows of one list are handled in list order from the
world state `s`: the calls of the first row, then those of the remaining rows
from the state in which the first row leaves the world. -/
def listCalls {σ α : Type} (step : Run σ → α → Run σ) : σ → List α → List Call
  | _, [] => []
  | s, row :: rows =>
    (step { state := s, calls := [] } row).calls ++
      listCalls step (step { state := s, calls := [] } row).state rows

/-- World state reached once the rows of one list have been handled in list
order from the world state `s`. -/
def listState {σ α : Type} (step : Run σ → α → Run σ) : σ → List α → σ
  | s, [] => s
  | s, row :: rows => listState step (step { state := s, calls := [] } row).state rows

/-- The order of the table diff processor: the row lists are handled in the
fixed order contact delete-then-insert, contact-existence-verify, thread
delete-then-insert, participant-add, participant-remove,
thread-existence-verify, mute-setting, thread-rename, message upserts, message
inserts, reaction-upsert, reaction-delete, each list fully before the next.
The two reaction lists are those of the table `reactions`. -/
def orderedCallsWith {σ : Type} (m : MetaClient σ) (s : σ) (tbl reactions : LSTable) :
    List Call :=
  let s1 := listState contactInsertStep s tbl.LSDeleteThenInsertContact
  let s2 := listState (contactVerifyStep m) s1 tbl.LSVerifyContactRowExists
  let s3 := listState (threadInsertStep m) s2 tbl.LSDeleteThenInsertThread
  let s4 := listState (participantAddStep m) s3 tbl.LSAddParticipantIdToGroupThread
  let s5 := listState (participantRemoveStep m) s4 tbl.LSRemoveParticipantFromThread
  let s6 := listState (threadVerifyStep m) s5 tbl.LSVerifyThreadExists
  let s7 := listState muteStep s6 tbl.LSUpdateThreadMuteSetting
  let s8 := listState (threadRenameStep m) s7 tbl.LSSyncUpdateThreadName
  let s9 := listState upsertStep s8 (m.WrapMessages tbl).1.1
  let s10 := listState (insertStep m) s9 (m.WrapMessages tbl).1.2
  let s11 := listState (reactionUpsertStep m) s10 reactions.LSUpsertReaction
  listCalls contactInsertStep s tbl.LSDeleteThenInsertContact ++
  listCalls (contactVerifyStep m) s1 tbl.LSVerifyContactRowExists ++
  listCalls (threadInsertStep m) s2 tbl.LSDeleteThenInsertThread ++
  listCalls (participantAddStep m) s3 tbl.LSAddParticipantIdToGroupThread ++
  listCalls (participantRemoveStep m) s4 tbl.LSRemoveParticipantFromThread ++
  listCalls (threadVerifyStep m) s5 tbl.LSVerifyThreadExists ++
  listCalls muteStep s6 tbl.LSUpdateThreadMuteSetting ++
  listCalls (threadRenameStep m) s7 tbl.LSSyncUpdateThreadName ++
  listCalls upsertStep s8 (m.WrapMessages tbl).1.1 ++
  listCalls (insertStep m) s9 (m.WrapMessages tbl).1.2 ++
  listCalls (reactionUpsertStep m) s10 reactions.LSUpsertReaction ++
  listCalls (reactionDeleteStep m) s11 reactions.LSDeleteReaction

/-- The order of the spec as the claim words it: every list, the two reaction
lists included, is the list of the table batch as received. -/
def orderedCallsOfBatch {σ : Type} (m : MetaClient σ) (s : σ) (tbl : LSTable) : List Call :=
  orderedCallsWith m s tbl tbl

/-- The order the code follows: the two reaction lists are those of the table
as `WrapMessages` leaves it. -/
def orderedCalls {σ : Type} (m : MetaClient σ) (s : σ) (tbl : LSTable) : List Call :=
  orderedCallsWith m s tbl (m.WrapMessages tbl).2

/-- Whether a call is a log statement. -/
def Call.isLog : Call → Bool
  | .Log _ _ _ => true
  | _ => false

/-- The chat-resync event queued by a call, when it carries a chat info. -/
def Call.asResyncWithInfo : Call → Option ChatResync
  | .QueueRemoteEvent _ (.ChatResync evt) => if evt.ChatInfo.isSome then some evt else none
  | _ => none

/-- The chat-resync event queued by a call, when it carries a lazy chat-info
fetch function. -/
def Call.asResyncWithFetch : Call → Option ChatResync
  | .QueueRemoteEvent _ (.ChatResync evt) =>
    if evt.GetChatInfoFunc.isSome then some evt else none
  | _ => none

/-- The chat-resync events queued with a chat info, in the order queued. -/
def resyncsWithInfo (calls : List Call) : List ChatResync :=
  calls.filterMap Call.asResyncWithInfo

/-- The chat-resync events queued with a lazy chat-info fetch function, in the
order queued. -/
def resyncsWithFetch (calls : List Call) : List ChatResync :=
  calls.filterMap Call.asResyncWithFetch

/-- A loop body is local when it only appends calls to those already made and
its effect on the world does not depend on them. -/
def IsLocal {σ α : Type} (step : Run σ → α → Run σ) : Prop :=
  ∀ (r : Run σ) (row : α),
    (step r row).calls = r.calls ++ (step { state := r.state, calls := [] } row).calls ∧
    (step r row).state = (step { state := r.state, calls := [] } row).state

/-- A table batch with one row in most lists. -/
def sampleTable : LSTable :=
  { LSDeleteThenInsertContact := [{ Id := 5, Name := "Eve" }]
    LSVerifyContactRowExists := [{ ContactId := 6, Name := "Bob" }]
    LSDeleteThenInsertThread :=
      [{ ThreadKey := 6, ThreadType := .ONE_TO_ONE, ThreadName := "Bob", ThreadDescription := "" },
       { ThreadKey := 9, ThreadType := .GROUP_THREAD, ThreadName := "Team"
         ThreadDescription := "work" },
       { ThreadKey := 11, ThreadType := .other 15, ThreadName := "Hub"
         ThreadDescription := "misc" }]
    LSAddParticipantIdToGroupThread := [{ ThreadKey := 9, ContactId := 6, Nickname := "bobby" }]
    LSVerifyThreadExists := [{ ThreadKey := 6, ThreadType := .ONE_TO_ONE }]
    LSUpdateThreadMuteSetting := [{ ThreadKey := 9 }]
    LSUpsertReaction := [{ ThreadKey := 9, MessageId := "mid.3", ActorId := 6, Reaction := "+1" }] }

/-- A table holding one reaction-upsert row, on a message that the same batch
upserts. -/
def upsertedReactionTable : LSTable :=
  { LSUpsertReaction := [{ ThreadKey := 9, MessageId := "mid.3", ActorId := 6, Reaction := "+1" }] }

/-- Script in which `WrapMessages` reports one upserted range and takes the
reactions of the upserted messages out of `LSUpsertReaction`, as the method
does to keep them from being handled as new reactions. -/
def upsertingScript : Script :=
  { wrap := ([{ ThreadKey := 9 }], [])
    wrapTable := fun tbl => { tbl with LSUpsertReaction := [] } }

/-- Response table in which the first correlated replace row carries a
message id, the last correlated one carries none, and a rejection row is
correlated. -/
def staleReplaceTable : LSTable :=
  { LSReplaceOptimsiticMessage :=
      [{ OfflineThreadingId := "7", MessageId := "mid.0" },
       { OfflineThreadingId := "7", MessageId := "" }]
    LSMarkOptimisticMessageFailed := [{ OTID := "7", Message := "blocked" }] }

/-- Script in which the readiness wait times out twice and the submission of
the third attempt is answered by `rejectedTable`. -/
def rejectingScript : Script :=
  { wait := fun n => if n < 2 then some (.errorString "timeout") else none
    exec := (some rejectedTable, none) }

/-! ## Failed attempts, in the words of the spec -/

/-- The first `k` attempts of a send all fail: in each, the readiness wait
returns an error, or it succeeds and the submission of the tasks returns an
error.  The result is the world after these attempts and the calls they made,
or `none` when one of them does not fail. -/
def failedAttempts {σ : Type} (m : MetaClient σ) (tasks : List Task) :
    Nat → σ → Option (σ × List Call)
  | 0, s => some (s, [])
  | k + 1, s =>
    match m.WaitUntilCanSendMessages s 15 with
    | (some _, s1) =>
      match failedAttempts m tasks k s1 with
      | some (s2, calls) => some (s2, Call.WaitUntilCanSendMessages 15 :: calls)
      | none => none
    | (none, s1) =>
      match m.ExecuteTasks s1 tasks with
      | ((_, some _), s2) =>
        match failedAttempts m tasks k s2 with
        | some (s3, calls) =>
          some (s3, Call.WaitUntilCanSendMessages 15 :: Call.ExecuteTasks tasks :: calls)
        | none => none
      | ((_, none), _) => none

/-! ## The ingestion worker (`handleMetaEvent`, `handleMetaEventLoop`) -/

/-- Go `status.StateConnected`. -/
def StateConnected : String := "CONNECTED"

/-- Dynamic type of the `event` field of a `metaEvent`: a
`*messagix.Event_PublishResponse` with its table, a `*messagix.Event_Ready`,
or a value of another type. -/
inductive RawEvent where
  | Event_PublishResponse (Table : LSTable)
  | Event_Ready
  | Other (goType : String)
  deriving DecidableEq

/-- Go `MetaClient.handleMetaEvent` (lines 116-129). -/
def handleMetaEvent {σ : Type} (m : MetaClient σ) (r : Run σ) (evt : RawEvent) : Run σ :=
  match evt with
  | .Event_PublishResponse tbl =>
    let r := r.log .Trace "Got new event table" [("table", .table (some tbl))]
    let t := handleTable m r.state tbl
    { state := t.state, calls := r.calls ++ t.calls }
  | .Event_Ready =>
    let r := r.log .Trace
      "Initial connect to Meta socket completed, sending connected BridgeState" []
    { state := m.BridgeStateSend r.state StateConnected
      calls := r.calls ++ [Call.BridgeStateSend StateConnected] }
  | .Other goType =>
    r.log .Warn "Unrecognized event type from messagix" [("event_type", .str goType)]

/-- Go `MetaClient.handleMetaEventLoop` (lines 106-114).  The list holds the
items received from the channel `m.incomingEvents`, in arrival order; `none`
is the nil pointer; the end of the list is the closed and drained channel. -/
def handleMetaEventLoop {σ : Type} (m : MetaClient σ) : Run σ → List (Option RawEvent) → Run σ
  | r, [] => r
  | r, none :: _ => r.log .Debug "Received nil event, stopping event handling" []
  | r, some evt :: rest => handleMetaEventLoop m (handleMetaEvent m r evt) rest

/-! ## Observations on the calls of one run -/

/-- The event queued to the host by a call. -/
def Call.asQueuedEvent : Call → Option RemoteEvent
  | .QueueRemoteEvent _ evt => some evt
  | _ => none

/-- The events queued to the host, in the order queued. -/
def queuedEvents (calls : List Call) : List RemoteEvent :=
  calls.filterMap Call.asQueuedEvent

/-- The calls that are not log statements, in the order made. -/
def requests (calls : List Call) : List Call :=
  calls.filter fun c => !c.isLog

/-- Invoking the fetch function of lines 295-317 `n` times in a row on the
same portal, each invocation in the world left by the previous one. -/
def GetChatInfoFunc.callTimes {σ : Type} (m : MetaClient σ) (f : GetChatInfoFunc)
    (portal : Portal) : Nat → Run σ → Run σ
  | 0, r => r
  | n + 1, r =>
    GetChatInfoFunc.callTimes m f portal n
      { state := (f.call m r.state portal).2.state
        calls := r.calls ++ (f.call m r.state portal).2.calls }

/-! ## Read state of a user in a portal (`database/userportal.go`) -/

/-- Go `database.PortalKey`. -/
structure DBPortalKey where
  ThreadID : Int
  Receiver : Int
  deriving DecidableEq

/-- Go `time.Time.UnixMilli`; the zero time is year 1. -/
def Time.UnixMilli : Time → Int
  | .zero => -62135596800000
  | .unixMilli ms => ms

/-- Go `database.User`, restricted to what `GetLastReadTS` and `SetLastReadTS`
use: the Matrix id, the column `last_read_ts` of the table `user_portal`
reached through `u.qh` (per `user_mxid` and portal; `none` when there is no
row), and the map `lastReadCache`. -/
structure User where
  MXID : String
  rows : String → DBPortalKey → Option Int
  lastReadCache : DBPortalKey → Option Time

/-- The statement `setLastReadTSQuery` (lines 30-34): insert the row, or, when
it exists, overwrite `last_read_ts` only if the stored value is smaller. -/
def execSetLastReadTS (rows : String → DBPortalKey → Option Int) (mxid : String)
    (portal : DBPortalKey) (ts : Int) : String → DBPortalKey → Option Int :=
  fun user key =>
    if user = mxid ∧ key = portal then
      match rows mxid portal with
      | none => some ts
      | some stored => if stored < ts then some ts else some stored
    else rows user key

/-- Go `User.GetLastReadTS` (lines 42-63).  `dbErr` is the failure of the
query, if it fails with an error other than `sql.ErrNoRows`. -/
def User.GetLastReadTS (u : User) (dbErr : Option GoError) (portal : DBPortalKey) :
    Time × User :=
  match u.lastReadCache portal with
  | some cached => (cached, u)
  | none =>
    match dbErr with
    | some _ => (Time.zero, u)
    | none =>
      let ts : Int := (u.rows u.MXID portal).getD 0
      let parsedTS := if ts ≠ 0 then Time.unixMilli ts else Time.zero
      (parsedTS,
        { u with lastReadCache := fun key => if key = portal then some parsedTS
                                             else u.lastReadCache key })

/-- Go `User.SetLastReadTS` (lines 65-82).  `dbErr` is the failure of the
statement, if it fails. -/
def User.SetLastReadTS (u : User) (dbErr : Option GoError) (portal : DBPortalKey)
    (ts : Time) : User :=
  match dbErr with
  | some _ => u
  | none =>
    { u with
      rows := execSetLastReadTS u.rows u.MXID portal ts.UnixMilli
      lastReadCache := fun key => if key = portal then some ts else u.lastReadCache key }

/-- A user with no row and an empty cache. -/
def freshUser : User :=
  { MXID := "@alice:example.org", rows := fun _ _ => none, lastReadCache := fun _ => none }

/-- The portal used by the concrete examples. -/
def portal42 : DBPortalKey := { ThreadID := 42, Receiver := 100 }

/-- A table whose only rows are one reaction-upsert row and one
reaction-delete row for the same thread, message and actor. -/
def reactionTable : LSTable :=
  { LSUpsertReaction := [{ ThreadKey := 9, MessageId := "mid.3", ActorId := 6, Reaction := "+1" }]
    LSDeleteReaction := [{ ThreadKey := 9, MessageId := "mid.3", ActorId := 6 }] }

variable {σ : Type}

/-! ## The retry loop and the inspection of the response -/

theorem retryLoop_fuel (m : MetaClient σ) (tasks : List Task) :
    ∀ (n : Nat) (v : LoopVars σ) (k : Nat), 5 - v.retries = n →
      retryLoop m tasks (n + k) v = retryLoop m tasks n v := by
  intro n
  induction n with
  | zero =>
    intro v k h
    have hge : ¬ v.retries < 5 := by omega
    cases k with
    | zero => rfl
    | succ k => simp [retryLoop, hge]
  | succ n ih =>
    intro v k h
    have hlt : v.retries < 5 := by omega
    have hk : n + 1 + k = (n + k) + 1 := by omega
    rw [hk]
    simp only [retryLoop, if_pos hlt]
    split
    · exact ih _ k (by simp only; omega)
    · split
      · rfl
      · exact ih _ k (by simp only; omega)

theorem HandleMatrixMessage_rejected (m : MetaClient σ) (s s1 : σ) (msg : MatrixMessage)
    (content : MessageEventContent) (thread otid : Int) (tasks : List Task) (v : LoopVars σ)
    (msgID : String) (rejected : GoError)
    (hParsed : msg.Event.Parsed = .Message content)
    (hNotice : content.MsgType ≠ MsgNotice)
    (hThread : Atoi msg.Portal.PortalKey.ID = .ok thread)
    (hConv : m.ToMeta s msg.Event content false thread msg.Portal = ((tasks, otid, none), s1))
    (hLoop : retryLoop m tasks 5
      { resp := none, err := none, retries := 0
        run := { state := s1
                 calls := [Call.ToMeta msg.Event content false thread msg.Portal] } } = v)
    (hInsp : inspectResponse v.resp v.err (FormatInt otid) = (msgID, some rejected)) :
    HandleMatrixMessage m s msg =
      { outcome := .returned none (some rejected), run := v.run } := by
  unfold HandleMatrixMessage
  simp only [hParsed, hThread, hConv, if_neg hNotice, errorsIs, hLoop, hInsp]
  simp

theorem HandleMatrixMessage_not_rejected (m : MetaClient σ) (s s1 : σ) (msg : MatrixMessage)
    (content : MessageEventContent) (thread otid : Int) (tasks : List Task) (v : LoopVars σ)
    (msgID : String)
    (hParsed : msg.Event.Parsed = .Message content)
    (hNotice : content.MsgType ≠ MsgNotice)
    (hThread : Atoi msg.Portal.PortalKey.ID = .ok thread)
    (hConv : m.ToMeta s msg.Event content false thread msg.Portal = ((tasks, otid, none), s1))
    (hLoop : retryLoop m tasks 5
      { resp := none, err := none, retries := 0
        run := { state := s1
                 calls := [Call.ToMeta msg.Event content false thread msg.Portal] } } = v)
    (hInsp : inspectResponse v.resp v.err (FormatInt otid) = (msgID, none)) :
    HandleMatrixMessage m s msg =
      if m.login.UserMXID = msg.Event.Sender then
        { outcome := .returned
            (some { DB :=
              { ID := msgID
                MXID := msg.Event.ID
                Room := { ID := msg.Portal.PortalKey.ID }
                SenderID := m.login.ID
                Timestamp := Time.zero } })
            none
          run := v.run }
      else
        { outcome := .returned none
            (some (.errorString ("sender mismatch with user login: " ++ msg.Event.Sender)))
          run := v.run } := by
  unfold HandleMatrixMessage
  simp only [hParsed, hThread, hConv, if_neg hNotice, errorsIs, hLoop, hInsp]
  simp

theorem retryLoop_success (m : MetaClient σ) (tasks : List Task) (fuel : Nat) :
    ∀ v0 v : LoopVars σ, retryLoop m tasks fuel v0 = v → v.err = none →
      v = v0 ∨ ∃ sPre, m.ExecuteTasks sPre tasks = ((v.resp, none), v.run.state) ∧
        v.run.calls.getLast? = some (Call.ExecuteTasks tasks) := by
  induction fuel with
  | zero => intro v0 v h _; left; exact h.symm
  | succ n ih =>
    intro v0 v h hErr
    unfold retryLoop at h
    split at h
    · split at h
      · rename_i e s1 hW
        rcases ih _ v h hErr with h1 | h1
        · subst h1; simp at hErr
        · right; exact h1
      · rename_i s1 hW
        split at h
        · rename_i resp s2 hE
          right
          subst h
          exact ⟨s1, hE, by simp⟩
        · rename_i resp e s2 hE
          rcases ih _ v h hErr with h1 | h1
          · subst h1; simp at hErr
          · right; exact h1
    · left; exact h.symm


theorem replaceLoop_uncorrelated (rows : List LSReplaceOptimsiticMessage) (otidStr : String)
    (h : ∀ x ∈ rows, x.OfflineThreadingId ≠ otidStr) (init : String) :
    rows.foldl (fun msgID replace =>
      if replace.OfflineThreadingId = otidStr then replace.MessageId else msgID) init = init := by
  induction rows generalizing init with
  | nil => rfl
  | cons r rs ih =>
    have hr : r.OfflineThreadingId ≠ otidStr := h r (List.mem_cons_self r rs)
    simp only [List.foldl_cons, if_neg hr]
    exact ih (fun x hx => h x (List.mem_cons_of_mem r hx)) init

theorem replacedMessageID_none (rows : List LSReplaceOptimsiticMessage) (otidStr : String)
    (h : ∀ x ∈ rows, x.OfflineThreadingId ≠ otidStr) : replacedMessageID rows otidStr = "" :=
  replaceLoop_uncorrelated rows otidStr h ""

theorem replacedMessageID_last (pre post : List LSReplaceOptimsiticMessage)
    (row : LSReplaceOptimsiticMessage) (otidStr : String)
    (hRow : row.OfflineThreadingId = otidStr)
    (hPost : ∀ x ∈ post, x.OfflineThreadingId ≠ otidStr) :
    replacedMessageID (pre ++ row :: post) otidStr = row.MessageId := by
  unfold replacedMessageID
  rw [List.foldl_append, List.foldl_cons, if_pos hRow]
  exact replaceLoop_uncorrelated post otidStr hPost row.MessageId


/-! ## Outbound delivery: the claims -/

/-- C1 (evaluation at the failing input).  With the readiness wait failing on
attempts 1 to 3 and the submission failing with a transport error on attempts
4 and 5, all five attempts fail, and `HandleMatrixMessage` nevertheless
returns a delivery record with an empty remote message id and a nil error:
the last observed error is dropped. -/
theorem HandleMatrixMessage_exhausted_retries_returns_record :
    (HandleMatrixMessage
        (scripted alice
          { wait := fun n => if n < 3 then some (.errorString "timeout") else none
            exec := (none, some (.errorString "connection reset")) })
        0 (textFrom "@alice:example.org")).outcome =
      .returned
        (some { DB := { ID := "", MXID := "$evt1", Room := { ID := "42" }, SenderID := "100"
                        Timestamp := Time.zero } })
        none ∧
    (HandleMatrixMessage
        (scripted alice
          { wait := fun n => if n < 3 then some (.errorString "timeout") else none
            exec := (none, some (.errorString "connection reset")) })
        0 (textFrom "@alice:example.org")).run.calls =
      [textCall "@alice:example.org",
        .WaitUntilCanSendMessages 15, .WaitUntilCanSendMessages 15, .WaitUntilCanSendMessages 15,
        .WaitUntilCanSendMessages 15, .ExecuteTasks [Task.converted "send"],
        .WaitUntilCanSendMessages 15, .ExecuteTasks [Task.converted "send"]] := by
  constructor <;> rfl

/-- C2 (counterexample).  The response table holds a "mark optimistic message
failed" row whose OTID is the decimal form of the OTID of the send, and also a
correlated "replace optimistic message" row with a message id: the call
returns a delivery record and a nil error, not the rejection. -/
theorem HandleMatrixMessage_failed_row_overridden :
    (∃ failed ∈ overriddenTable.LSMarkOptimisticMessageFailed, failed.OTID = FormatInt 7) ∧
    (scripted alice { exec := (some overriddenTable, none) }).ToMeta 0
        (textFrom "@alice:example.org").Event { MsgType := "m.text", Body := "hello" } false 42
        (textFrom "@alice:example.org").Portal = (([Task.converted "send"], 7, none), 0) ∧
    (HandleMatrixMessage (scripted alice { exec := (some overriddenTable, none) }) 0
        (textFrom "@alice:example.org")).outcome =
      .returned
        (some { DB := { ID := "mid.1", MXID := "$evt1", Room := { ID := "42" }, SenderID := "100"
                        Timestamp := Time.zero } })
        none := by
  refine ⟨⟨{ OTID := "7", Message := "blocked" }, List.mem_singleton.mpr rfl, rfl⟩, rfl, rfl⟩

theorem retryLoop_failed_then_ok (m : MetaClient σ) (tasks : List Task) (k : Nat) :
    ∀ (fuel : Nat) (v : LoopVars σ) (s2 s3 s4 : σ) (calls : List Call) (resp : Option LSTable),
      v.retries + k < 5 → k < fuel →
      failedAttempts m tasks k v.run.state = some (s2, calls) →
      m.WaitUntilCanSendMessages s2 15 = (none, s3) →
      m.ExecuteTasks s3 tasks = ((resp, none), s4) →
      retryLoop m tasks fuel v =
        { resp := resp, err := none, retries := v.retries + k
          run := { state := s4
                   calls := v.run.calls ++ calls ++
                     [Call.WaitUntilCanSendMessages 15, Call.ExecuteTasks tasks] } } := by
  induction k with
  | zero =>
    intro fuel v s2 s3 s4 calls resp hR hF hFailed hWait hExec
    obtain ⟨fuel, rfl⟩ : ∃ n, fuel = n + 1 := ⟨fuel - 1, by omega⟩
    simp only [failedAttempts, Option.some.injEq, Prod.mk.injEq] at hFailed
    obtain ⟨rfl, rfl⟩ := hFailed
    have hlt : v.retries < 5 := by omega
    simp [retryLoop, hlt, hWait, hExec]
  | succ k ih =>
    intro fuel v s2 s3 s4 calls resp hR hF hFailed hWait hExec
    obtain ⟨fuel, rfl⟩ : ∃ n, fuel = n + 1 := ⟨fuel - 1, by omega⟩
    have hlt : v.retries < 5 := by omega
    unfold failedAttempts at hFailed
    unfold retryLoop
    simp only [if_pos hlt]
    rcases hW : m.WaitUntilCanSendMessages v.run.state 15 with ⟨_ | e, s1⟩
    · rw [hW] at hFailed
      simp only at hFailed ⊢
      rcases hE : m.ExecuteTasks s1 tasks with ⟨⟨resp1, _ | e1⟩, s1x⟩
      · rw [hE] at hFailed; simp at hFailed
      · rw [hE] at hFailed
        simp only at hFailed ⊢
        rcases hRest : failedAttempts m tasks k s1x with _ | ⟨s2x, callsx⟩
        · rw [hRest] at hFailed; simp at hFailed
        · rw [hRest] at hFailed
          simp only [Option.some.injEq, Prod.mk.injEq] at hFailed
          obtain ⟨rfl, rfl⟩ := hFailed
          rw [ih fuel _ s2x s3 s4 callsx resp (by simp only; omega) (by omega) hRest hWait hExec]
          simp [Nat.add_assoc, Nat.add_comm 1 k]
    · rw [hW] at hFailed
      simp only at hFailed ⊢
      rcases hRest : failedAttempts m tasks k s1 with _ | ⟨s2x, callsx⟩
      · rw [hRest] at hFailed; simp at hFailed
      · rw [hRest] at hFailed
        simp only [Option.some.injEq, Prod.mk.injEq] at hFailed
        obtain ⟨rfl, rfl⟩ := hFailed
        rw [ih fuel _ s2x s3 s4 callsx resp (by simp only; omega) (by omega) hRest hWait hExec]
        simp [Nat.add_assoc, Nat.add_comm 1 k]


/-- C2 (amended).  The first `k` attempts (`k < 5`) fail, then a readiness
wait succeeds and the submission returns, without error, a response table from
whose "replace optimistic message" rows no message id is obtained and which
holds a "mark optimistic message failed" row or a "handle failed task" row
correlated by the decimal OTID.  Then the call returns no delivery record and
the error "sending message failed: " followed by the message of the first
correlated "mark failed" row, or, when no such row is correlated, of the first
correlated "handle failed task" row.  The calls made are the conversion, those
of the failed attempts, the readiness wait and the submission that produced
the response, and nothing after it; the world is left as that submission left
it. -/
theorem HandleMatrixMessage_server_rejected (m : MetaClient σ) (s s1 s2 s3 s4 : σ)
    (msg : MatrixMessage) (content : MessageEventContent) (thread otid : Int)
    (tasks : List Task) (tbl : LSTable) (k : Nat) (failedCalls : List Call)
    (hParsed : msg.Event.Parsed = .Message content)
    (hNotice : content.MsgType ≠ MsgNotice)
    (hThread : Atoi msg.Portal.PortalKey.ID = .ok thread)
    (hConv : m.ToMeta s msg.Event content false thread msg.Portal = ((tasks, otid, none), s1))
    (hAttempts : k < 5)
    (hFailed : failedAttempts m tasks k s1 = some (s2, failedCalls))
    (hWait : m.WaitUntilCanSendMessages s2 15 = (none, s3))
    (hExec : m.ExecuteTasks s3 tasks = ((some tbl, none), s4))
    (hNoId : replacedMessageID tbl.LSReplaceOptimsiticMessage (FormatInt otid) = "")
    (hRow : (∃ failed ∈ tbl.LSMarkOptimisticMessageFailed, failed.OTID = FormatInt otid) ∨
      (∃ failed ∈ tbl.LSHandleFailedTask, failed.OTID = FormatInt otid)) :
    ∃ text : String,
      ((∃ pre failed post, tbl.LSMarkOptimisticMessageFailed = pre ++ failed :: post ∧
          (∀ x ∈ pre, x.OTID ≠ FormatInt otid) ∧ failed.OTID = FormatInt otid ∧
          failed.Message = text) ∨
        ((∀ x ∈ tbl.LSMarkOptimisticMessageFailed, x.OTID ≠ FormatInt otid) ∧
          ∃ pre failed post, tbl.LSHandleFailedTask = pre ++ failed :: post ∧
            (∀ x ∈ pre, x.OTID ≠ FormatInt otid) ∧ failed.OTID = FormatInt otid ∧
            failed.Message = text)) ∧
      (HandleMatrixMessage m s msg).outcome =
        .returned none (some (.errorString ("sending message failed: " ++ text))) ∧
      (HandleMatrixMessage m s msg).run.calls =
        Call.ToMeta msg.Event content false thread msg.Portal ::
          (failedCalls ++ [Call.WaitUntilCanSendMessages 15, Call.ExecuteTasks tasks]) ∧
      (HandleMatrixMessage m s msg).run.state = s4 := by
  have hLoop := retryLoop_failed_then_ok m tasks k 5
    { resp := none, err := none, retries := 0
      run := { state := s1
               calls := [Call.ToMeta msg.Event content false thread msg.Portal] } }
    s2 s3 s4 failedCalls (some tbl) (by simp only; omega) hAttempts hFailed hWait hExec
  cases hM : tbl.LSMarkOptimisticMessageFailed.find? (fun failed => failed.OTID == FormatInt otid) with
  | some failed =>
    have hInsp : inspectResponse (some tbl) none (FormatInt otid) =
        ("", some (.errorString ("sending message failed: " ++ failed.Message))) := by
      simp [inspectResponse, hNoId, hM]
    have hRun := HandleMatrixMessage_rejected m s s1 msg content thread otid tasks _ _ _
      hParsed hNotice hThread hConv hLoop hInsp
    obtain ⟨hp, pre, post, hEq, hPreNo⟩ := List.find?_eq_some.mp hM
    refine ⟨failed.Message, Or.inl ⟨pre, failed, post, hEq, ?_, ?_, rfl⟩, ?_, ?_, ?_⟩
    · intro x hx; simpa using hPreNo x hx
    · simpa using hp
    · rw [hRun]
    · rw [hRun]; simp
    · rw [hRun]
  | none =>
    have hNoM : ∀ x ∈ tbl.LSMarkOptimisticMessageFailed, x.OTID ≠ FormatInt otid := by
      intro x hx; simpa using (List.find?_eq_none.mp hM) x hx
    have hH : ∃ failed ∈ tbl.LSHandleFailedTask, failed.OTID = FormatInt otid := by
      rcases hRow with ⟨f, hf, hfo⟩ | h
      · exact absurd hfo (hNoM f hf)
      · exact h
    cases hF : tbl.LSHandleFailedTask.find? (fun failed => failed.OTID == FormatInt otid) with
    | none =>
      obtain ⟨f, hf, hfo⟩ := hH
      have := (List.find?_eq_none.mp hF) f hf
      simp [hfo] at this
    | some failed =>
      have hInsp : inspectResponse (some tbl) none (FormatInt otid) =
          ("", some (.errorString ("sending message failed: " ++ failed.Message))) := by
        simp [inspectResponse, hNoId, hM, hF]
      have hRun := HandleMatrixMessage_rejected m s s1 msg content thread otid tasks _ _ _
        hParsed hNotice hThread hConv hLoop hInsp
      obtain ⟨hp, pre, post, hEq, hPreNo⟩ := List.find?_eq_some.mp hF
      refine ⟨failed.Message, Or.inr ⟨hNoM, pre, failed, post, hEq, ?_, ?_, rfl⟩, ?_, ?_, ?_⟩
      · intro x hx; simpa using hPreNo x hx
      · simpa using hp
      · rw [hRun]
      · rw [hRun]; simp
      · rw [hRun]

theorem inspectResponse_no_failure (resp : Option LSTable) (otidStr : String)
    (hNoFail : ∀ tbl, resp = some tbl →
      (∀ x ∈ tbl.LSMarkOptimisticMessageFailed, x.OTID ≠ otidStr) ∧
      (∀ x ∈ tbl.LSHandleFailedTask, x.OTID ≠ otidStr)) (err : Option GoError) :
    (inspectResponse resp err otidStr).2 = none := by
  unfold inspectResponse
  split
  · rename_i tbl
    obtain ⟨h1, h2⟩ := hNoFail tbl rfl
    have hM : tbl.LSMarkOptimisticMessageFailed.find? (fun failed => failed.OTID == otidStr) = none := by
      rw [List.find?_eq_none]; intro x hx; simpa using h1 x hx
    have hF : tbl.LSHandleFailedTask.find? (fun failed => failed.OTID == otidStr) = none := by
      rw [List.find?_eq_none]; intro x hx; simpa using h2 x hx
    simp only [hM, hF]
    split <;> rfl
  · rfl

/-- C3.  When the readiness wait fails on attempts 1 to 4 and succeeds on
attempt 5, and the submission of attempt 5 succeeds with a response holding no
correlated failure row, a convertible message sent by the active login gets a
delivery record and a nil error; the calls made after the conversion are five
readiness waits followed by one submission of the tasks. -/
theorem HandleMatrixMessage_fifth_attempt (m : MetaClient σ) (s s1 s2 s3 s4 s5 s6 s7 : σ)
    (msg : MatrixMessage) (content : MessageEventContent) (thread otid : Int)
    (tasks : List Task) (e1 e2 e3 e4 : GoError) (resp : Option LSTable)
    (hParsed : msg.Event.Parsed = .Message content)
    (hNotice : content.MsgType ≠ MsgNotice)
    (hThread : Atoi msg.Portal.PortalKey.ID = .ok thread)
    (hConv : m.ToMeta s msg.Event content false thread msg.Portal = ((tasks, otid, none), s1))
    (hWait1 : m.WaitUntilCanSendMessages s1 15 = (some e1, s2))
    (hWait2 : m.WaitUntilCanSendMessages s2 15 = (some e2, s3))
    (hWait3 : m.WaitUntilCanSendMessages s3 15 = (some e3, s4))
    (hWait4 : m.WaitUntilCanSendMessages s4 15 = (some e4, s5))
    (hWait5 : m.WaitUntilCanSendMessages s5 15 = (none, s6))
    (hExec : m.ExecuteTasks s6 tasks = ((resp, none), s7))
    (hNoFail : ∀ tbl, resp = some tbl →
      (∀ x ∈ tbl.LSMarkOptimisticMessageFailed, x.OTID ≠ FormatInt otid) ∧
      (∀ x ∈ tbl.LSHandleFailedTask, x.OTID ≠ FormatInt otid))
    (hSender : m.login.UserMXID = msg.Event.Sender) :
    (∃ record, (HandleMatrixMessage m s msg).outcome = .returned (some record) none) ∧
    (HandleMatrixMessage m s msg).run.calls =
      [Call.ToMeta msg.Event content false thread msg.Portal,
        .WaitUntilCanSendMessages 15, .WaitUntilCanSendMessages 15, .WaitUntilCanSendMessages 15,
        .WaitUntilCanSendMessages 15, .WaitUntilCanSendMessages 15, .ExecuteTasks tasks] ∧
    (HandleMatrixMessage m s msg).run.state = s7 := by
  have hLoop : retryLoop m tasks 5
      { resp := none, err := none, retries := 0
        run := { state := s1
                 calls := [Call.ToMeta msg.Event content false thread msg.Portal] } } =
      { resp := resp, err := none, retries := 4
        run := { state := s7
                 calls := [Call.ToMeta msg.Event content false thread msg.Portal,
                   .WaitUntilCanSendMessages 15, .WaitUntilCanSendMessages 15,
                   .WaitUntilCanSendMessages 15, .WaitUntilCanSendMessages 15,
                   .WaitUntilCanSendMessages 15, .ExecuteTasks tasks] } } := by
    simp [retryLoop, hWait1, hWait2, hWait3, hWait4, hWait5, hExec]
  have hInsp := inspectResponse_no_failure resp (FormatInt otid) hNoFail none
  have hRun := HandleMatrixMessage_not_rejected m s s1 msg content thread otid tasks _
    (inspectResponse resp none (FormatInt otid)).1 hParsed hNotice hThread hConv hLoop
    (Prod.ext rfl hInsp)
  rw [hRun, if_pos hSender]
  exact ⟨⟨_, rfl⟩, rfl, rfl⟩

/-- C4 (counterexample).  The response table holds a "replace optimistic
message" row correlated with the OTID 7 and carrying the message id "mid.0",
the submission succeeds and the sender is the active login; but a later
correlated replace row carries an empty message id and a rejection row is
correlated, and the call returns the rejection instead of a delivery record. -/
theorem HandleMatrixMessage_stale_replace_row :
    (∃ row ∈ staleReplaceTable.LSReplaceOptimsiticMessage,
      row.OfflineThreadingId = FormatInt 7 ∧ row.MessageId ≠ "") ∧
    (scripted alice { exec := (some staleReplaceTable, none) }).ExecuteTasks 1
        [Task.converted "send"] = ((some staleReplaceTable, none), 1) ∧
    alice.UserMXID = (textFrom "@alice:example.org").Event.Sender ∧
    (HandleMatrixMessage (scripted alice { exec := (some staleReplaceTable, none) }) 0
        (textFrom "@alice:example.org")).outcome =
      .returned none (some (.errorString "sending message failed: blocked")) := by
  refine ⟨⟨{ OfflineThreadingId := "7", MessageId := "mid.0" }, ?_, rfl, by decide⟩,
    rfl, rfl, rfl⟩
  exact List.mem_cons_self _ _

/-- C4 (amended).  The first `k` attempts (`k < 5`) fail, then a readiness
wait succeeds and the submission returns, without error, a response table
whose last "replace optimistic message" row correlated by the decimal OTID
carries a non-empty message id; the event sender is the Matrix id of the
active login.  Then the call returns a nil error and the delivery record made
of that message id, the id of the outgoing event, the portal key built from
the portal id of the message, and the id of the login; the last call made is
the submission that produced the response. -/
theorem HandleMatrixMessage_delivery_record (m : MetaClient σ) (s s1 s2 s3 s4 : σ)
    (msg : MatrixMessage) (content : MessageEventContent) (thread otid : Int)
    (tasks : List Task) (tbl : LSTable) (k : Nat) (failedCalls : List Call)
    (pre post : List LSReplaceOptimsiticMessage) (row : LSReplaceOptimsiticMessage)
    (hParsed : msg.Event.Parsed = .Message content)
    (hNotice : content.MsgType ≠ MsgNotice)
    (hThread : Atoi msg.Portal.PortalKey.ID = .ok thread)
    (hConv : m.ToMeta s msg.Event content false thread msg.Portal = ((tasks, otid, none), s1))
    (hAttempts : k < 5)
    (hFailed : failedAttempts m tasks k s1 = some (s2, failedCalls))
    (hWait : m.WaitUntilCanSendMessages s2 15 = (none, s3))
    (hExec : m.ExecuteTasks s3 tasks = ((some tbl, none), s4))
    (hRows : tbl.LSReplaceOptimsiticMessage = pre ++ row :: post)
    (hRow : row.OfflineThreadingId = FormatInt otid)
    (hId : row.MessageId ≠ "")
    (hPost : ∀ x ∈ post, x.OfflineThreadingId ≠ FormatInt otid)
    (hSender : m.login.UserMXID = msg.Event.Sender) :
    (HandleMatrixMessage m s msg).outcome =
      .returned
        (some { DB :=
          { ID := row.MessageId
            MXID := msg.Event.ID
            Room := { ID := msg.Portal.PortalKey.ID }
            SenderID := m.login.ID
            Timestamp := Time.zero } })
        none ∧
    (HandleMatrixMessage m s msg).run.calls =
      Call.ToMeta msg.Event content false thread msg.Portal ::
        (failedCalls ++ [Call.WaitUntilCanSendMessages 15, Call.ExecuteTasks tasks]) ∧
    (HandleMatrixMessage m s msg).run.state = s4 := by
  have hLoop := retryLoop_failed_then_ok m tasks k 5
    { resp := none, err := none, retries := 0
      run := { state := s1
               calls := [Call.ToMeta msg.Event content false thread msg.Portal] } }
    s2 s3 s4 failedCalls (some tbl) (by simp only; omega) hAttempts hFailed hWait hExec
  have hMsgID : replacedMessageID tbl.LSReplaceOptimsiticMessage (FormatInt otid) =
      row.MessageId := by
    rw [hRows]; exact replacedMessageID_last pre post row _ hRow hPost
  have hInsp : inspectResponse (some tbl) none (FormatInt otid) = (row.MessageId, none) := by
    simp [inspectResponse, hMsgID, hId]
  rw [HandleMatrixMessage_not_rejected m s s1 msg content thread otid tasks _ _
    hParsed hNotice hThread hConv hLoop hInsp, if_pos hSender]
  exact ⟨rfl, by simp, rfl⟩

/-- C5 (counterexample).  When the conversion fails with the "please reload
page" condition the call does not return: it aborts with a panic. -/
theorem HandleMatrixMessage_reload_panics :
    (HandleMatrixMessage (scripted alice { convert := ([], 0, some .ErrPleaseReloadPage) }) 0
        (textFrom "@alice:example.org")).outcome = .panicked "unimplemented" ∧
    ∀ value err,
      (HandleMatrixMessage (scripted alice { convert := ([], 0, some .ErrPleaseReloadPage) }) 0
        (textFrom "@alice:example.org")).outcome ≠ .returned value err := by
  constructor
  · rfl
  · intro value err h
    have h2 : (Outcome.panicked "unimplemented" : Outcome MatrixMessageResponse) =
        .returned value err := h
    cases h2

/-- C5 (amended).  When the conversion of a message that passed the
content-type and thread-id steps fails, the only call made is the conversion:
no readiness wait and no submission.  If the failure is the "please reload
page" or the "credentials invalidated" condition the call aborts with the
panic "unimplemented"; any other conversion failure is returned as the error,
with no delivery record. -/
theorem HandleMatrixMessage_conversion_failure (m : MetaClient σ) (s s1 : σ)
    (msg : MatrixMessage) (content : MessageEventContent) (thread otid : Int)
    (tasks : List Task) (err : GoError)
    (hParsed : msg.Event.Parsed = .Message content)
    (hNotice : content.MsgType ≠ MsgNotice)
    (hThread : Atoi msg.Portal.PortalKey.ID = .ok thread)
    (hConv : m.ToMeta s msg.Event content false thread msg.Portal =
      ((tasks, otid, some err), s1)) :
    (HandleMatrixMessage m s msg).run.calls =
      [Call.ToMeta msg.Event content false thread msg.Portal] ∧
    (HandleMatrixMessage m s msg).run.state = s1 ∧
    (errorsIs (some err) .ErrPleaseReloadPage = true ∨
        errorsIs (some err) .ErrTokenInvalidated = true →
      (HandleMatrixMessage m s msg).outcome = .panicked "unimplemented") ∧
    (errorsIs (some err) .ErrPleaseReloadPage = false ∧
        errorsIs (some err) .ErrTokenInvalidated = false →
      (HandleMatrixMessage m s msg).outcome = .returned none (some err)) := by
  unfold HandleMatrixMessage
  simp only [hParsed, hThread, hConv, if_neg hNotice]
  by_cases h1 : errorsIs (some err) .ErrPleaseReloadPage = true
  · simp [h1]
  · by_cases h2 : errorsIs (some err) .ErrTokenInvalidated = true
    · simp [h1, h2]
    · simp [h1, h2]

/-- C6 (counterexample).  A notice is not rejected with an error: the call
returns a nil error (and no delivery record). -/
theorem HandleMatrixMessage_notice_nil_error :
    (HandleMatrixMessage (scripted alice {}) 0 (noticeFrom "@alice:example.org")).outcome =
      .returned none none := rfl

/-- C6 (amended).  A message whose parsed content is not message content is
rejected with the error "unexpected parsed content type: ...", and a notice is
ignored with a nil error; in both cases there is no delivery record and no
call at all is made (no conversion, no readiness wait, no submission). -/
theorem HandleMatrixMessage_content_type (m : MetaClient σ) (s : σ) (msg : MatrixMessage)
    (h : (∃ goType, msg.Event.Parsed = .Other goType) ∨
      (∃ content, msg.Event.Parsed = .Message content ∧ content.MsgType = MsgNotice)) :
    (HandleMatrixMessage m s msg).run.calls = [] ∧
    (HandleMatrixMessage m s msg).run.state = s ∧
    ((∃ goType, msg.Event.Parsed = .Other goType) →
      (HandleMatrixMessage m s msg).outcome = .returned none
        (some (.errorString "unexpected parsed content type: *event.MessageEventContent"))) ∧
    ((∃ content, msg.Event.Parsed = .Message content ∧ content.MsgType = MsgNotice) →
      (HandleMatrixMessage m s msg).outcome = .returned none none) := by
  rcases h with ⟨goType, hO⟩ | ⟨content, hM, hN⟩
  · unfold HandleMatrixMessage
    simp [hO]
  · unfold HandleMatrixMessage
    simp [hM, hN]

/-- C7 (counterexample).  A notice whose sender is not the active login: no
step returns an error, and the call returns a nil error instead of the
sender-mismatch error. -/
theorem HandleMatrixMessage_notice_no_mismatch_error :
    alice.UserMXID ≠ (noticeFrom "@mallory:example.org").Event.Sender ∧
    (HandleMatrixMessage (scripted alice {}) 0 (noticeFrom "@mallory:example.org")).outcome =
      .returned none none := by
  constructor
  · decide
  · rfl

/-- C7 (amended).  When the event sender differs from the Matrix id of the
active login and the trailing check is reached (the content is message content
other than a notice, the thread id parses, the conversion succeeds and the
inspection of the response does not reject the send), the call returns the
sender-mismatch error and no delivery record, whatever the retry loop
obtained from the transport. -/
theorem HandleMatrixMessage_sender_mismatch (m : MetaClient σ) (s s1 : σ) (msg : MatrixMessage)
    (content : MessageEventContent) (thread otid : Int) (tasks : List Task) (v : LoopVars σ)
    (hParsed : msg.Event.Parsed = .Message content)
    (hNotice : content.MsgType ≠ MsgNotice)
    (hThread : Atoi msg.Portal.PortalKey.ID = .ok thread)
    (hConv : m.ToMeta s msg.Event content false thread msg.Portal = ((tasks, otid, none), s1))
    (hLoop : retryLoop m tasks 5
      { resp := none, err := none, retries := 0
        run := { state := s1
                 calls := [Call.ToMeta msg.Event content false thread msg.Portal] } } = v)
    (hInsp : (inspectResponse v.resp v.err (FormatInt otid)).2 = none)
    (hSender : m.login.UserMXID ≠ msg.Event.Sender) :
    (HandleMatrixMessage m s msg).outcome =
      .returned none
        (some (.errorString ("sender mismatch with user login: " ++ msg.Event.Sender))) := by
  rw [HandleMatrixMessage_not_rejected m s s1 msg content thread otid tasks v
    (inspectResponse v.resp v.err (FormatInt otid)).1 hParsed hNotice hThread hConv hLoop
    (Prod.ext rfl hInsp), if_neg hSender]

/-! ## Outbound delivery: the theorems at concrete inputs -/

/-- C2 (witness).  The readiness wait times out twice, then the submission of
the third attempt is answered by a table holding one correlated "mark
optimistic message failed" row and no replace row: the send is rejected with
the message of that row, after two waits, a third wait and one submission. -/
theorem HandleMatrixMessage_server_rejected_witness :
    ∃ text : String,
      ((∃ pre failed post, rejectedTable.LSMarkOptimisticMessageFailed = pre ++ failed :: post ∧
          (∀ x ∈ pre, x.OTID ≠ FormatInt 7) ∧ failed.OTID = FormatInt 7 ∧
          failed.Message = text) ∨
        ((∀ x ∈ rejectedTable.LSMarkOptimisticMessageFailed, x.OTID ≠ FormatInt 7) ∧
          ∃ pre failed post, rejectedTable.LSHandleFailedTask = pre ++ failed :: post ∧
            (∀ x ∈ pre, x.OTID ≠ FormatInt 7) ∧ failed.OTID = FormatInt 7 ∧
            failed.Message = text)) ∧
      (HandleMatrixMessage (scripted alice rejectingScript) 0
          (textFrom "@alice:example.org")).outcome =
        .returned none (some (.errorString ("sending message failed: " ++ text))) ∧
      (HandleMatrixMessage (scripted alice rejectingScript) 0
          (textFrom "@alice:example.org")).run.calls =
        textCall "@alice:example.org" ::
          ([Call.WaitUntilCanSendMessages 15, Call.WaitUntilCanSendMessages 15] ++
            [Call.WaitUntilCanSendMessages 15, Call.ExecuteTasks [Task.converted "send"]]) ∧
      (HandleMatrixMessage (scripted alice rejectingScript) 0
          (textFrom "@alice:example.org")).run.state = 3 :=
  HandleMatrixMessage_server_rejected (scripted alice rejectingScript) 0 0 2 3 3
    (textFrom "@alice:example.org") { MsgType := "m.text", Body := "hello" } 42 7
    [Task.converted "send"] rejectedTable 2
    [Call.WaitUntilCanSendMessages 15, Call.WaitUntilCanSendMessages 15]
    rfl (by decide) rfl rfl (by decide) rfl rfl rfl rfl
    (Or.inl ⟨{ OTID := "7", Message := "blocked" }, List.mem_singleton.mpr rfl, rfl⟩)

/-- C3 (witness).  The readiness wait times out four times, then succeeds. -/
theorem HandleMatrixMessage_fifth_attempt_witness :
    (∃ record, (HandleMatrixMessage (scripted alice flakyScript) 0
        (textFrom "@alice:example.org")).outcome = .returned (some record) none) ∧
    (HandleMatrixMessage (scripted alice flakyScript) 0
        (textFrom "@alice:example.org")).run.calls =
      [textCall "@alice:example.org",
        .WaitUntilCanSendMessages 15, .WaitUntilCanSendMessages 15, .WaitUntilCanSendMessages 15,
        .WaitUntilCanSendMessages 15, .WaitUntilCanSendMessages 15,
        .ExecuteTasks [Task.converted "send"]] ∧
    (HandleMatrixMessage (scripted alice flakyScript) 0
        (textFrom "@alice:example.org")).run.state = 5 :=
  HandleMatrixMessage_fifth_attempt (scripted alice flakyScript) 0 0 1 2 3 4 5 5
    (textFrom "@alice:example.org") { MsgType := "m.text", Body := "hello" } 42 7
    [Task.converted "send"] (.errorString "timeout") (.errorString "timeout")
    (.errorString "timeout") (.errorString "timeout") (some {})
    rfl (by decide) rfl rfl rfl rfl rfl rfl rfl rfl
    (fun tbl h => by cases h; exact ⟨by decide, by decide⟩) rfl

/-- C4 (witness).  The first submission succeeds; two replace rows are
correlated with the OTID 7 and the record carries the message id of the
second. -/
theorem HandleMatrixMessage_delivery_record_witness :
    (HandleMatrixMessage (scripted alice { exec := (some confirmedTable, none) }) 0
        (textFrom "@alice:example.org")).outcome =
      .returned
        (some { DB := { ID := "mid.1", MXID := "$evt1", Room := { ID := "42" }, SenderID := "100"
                        Timestamp := Time.zero } })
        none ∧
    (HandleMatrixMessage (scripted alice { exec := (some confirmedTable, none) }) 0
        (textFrom "@alice:example.org")).run.calls =
      textCall "@alice:example.org" ::
        ([] ++ [Call.WaitUntilCanSendMessages 15, Call.ExecuteTasks [Task.converted "send"]]) ∧
    (HandleMatrixMessage (scripted alice { exec := (some confirmedTable, none) }) 0
        (textFrom "@alice:example.org")).run.state = 1 :=
  HandleMatrixMessage_delivery_record (scripted alice { exec := (some confirmedTable, none) })
    0 0 0 1 1 (textFrom "@alice:example.org") { MsgType := "m.text", Body := "hello" } 42 7
    [Task.converted "send"] confirmedTable 0 []
    [{ OfflineThreadingId := "7", MessageId := "mid.0" }]
    [{ OfflineThreadingId := "8", MessageId := "mid.2" }]
    { OfflineThreadingId := "7", MessageId := "mid.1" }
    rfl (by decide) rfl rfl (by decide) rfl rfl rfl rfl rfl (by decide) (by decide) rfl

/-- C5 (witness).  The conversion fails with an error wrapping the
"credentials invalidated" sentinel. -/
theorem HandleMatrixMessage_conversion_failure_witness :
    (HandleMatrixMessage
        (scripted alice { convert := ([], 0, some (.wrapError "upload: " .ErrTokenInvalidated)) })
        0 (textFrom "@alice:example.org")).run.calls = [textCall "@alice:example.org"] ∧
    (HandleMatrixMessage
        (scripted alice { convert := ([], 0, some (.wrapError "upload: " .ErrTokenInvalidated)) })
        0 (textFrom "@alice:example.org")).outcome = .panicked "unimplemented" :=
  have h := HandleMatrixMessage_conversion_failure
    (scripted alice { convert := ([], 0, some (.wrapError "upload: " .ErrTokenInvalidated)) })
    0 0 (textFrom "@alice:example.org") { MsgType := "m.text", Body := "hello" } 42 0 []
    (.wrapError "upload: " .ErrTokenInvalidated) rfl (by decide) rfl rfl
  ⟨h.1, h.2.2.1 (Or.inr rfl)⟩

/-- C6 (witness).  A notice: no call is made and the error is nil. -/
theorem HandleMatrixMessage_content_type_witness :
    (HandleMatrixMessage (scripted alice {}) 0 (noticeFrom "@alice:example.org")).run.calls = [] ∧
    (HandleMatrixMessage (scripted alice {}) 0 (noticeFrom "@alice:example.org")).outcome =
      .returned none none :=
  have h := HandleMatrixMessage_content_type (scripted alice {}) 0
    (noticeFrom "@alice:example.org")
    (Or.inr ⟨{ MsgType := "m.notice", Body := "fyi" }, rfl, rfl⟩)
  ⟨h.1, h.2.2.2 ⟨{ MsgType := "m.notice", Body := "fyi" }, rfl, rfl⟩⟩

/-- C7 (witness).  A text message whose sender is not the active login. -/
theorem HandleMatrixMessage_sender_mismatch_witness :
    (HandleMatrixMessage (scripted alice {}) 0 (textFrom "@mallory:example.org")).outcome =
      .returned none
        (some (.errorString "sender mismatch with user login: @mallory:example.org")) :=
  HandleMatrixMessage_sender_mismatch (scripted alice {}) 0 0 (textFrom "@mallory:example.org")
    { MsgType := "m.text", Body := "hello" } 42 7 [Task.converted "send"] _
    rfl (by decide) rfl rfl rfl rfl (by decide)

/-! ## The table diff processor -/

theorem foldl_local {α : Type} (step : Run σ → α → Run σ) (hStep : IsLocal step)
    (rows : List α) :
    ∀ r : Run σ,
      (rows.foldl step r).calls = r.calls ++ listCalls step r.state rows ∧
      (rows.foldl step r).state = listState step r.state rows := by
  induction rows with
  | nil => intro r; simp [listCalls, listState]
  | cons row rows ih =>
    intro r
    obtain ⟨hc, hs⟩ := hStep r row
    obtain ⟨ihc, ihs⟩ := ih (step r row)
    simp only [List.foldl_cons, listCalls, listState]
    rw [ihc, ihs, hc, hs, List.append_assoc]
    exact ⟨rfl, rfl⟩

theorem contactInsertStep_local : IsLocal (σ := σ) contactInsertStep := by
  intro r row; simp [contactInsertStep, Run.log]

theorem contactVerifyStep_local (m : MetaClient σ) : IsLocal (contactVerifyStep m) := by
  intro r row
  simp only [contactVerifyStep, Run.log]
  split <;> simp

theorem threadInsertStep_local (m : MetaClient σ) : IsLocal (threadInsertStep m) := by
  intro r row; simp [threadInsertStep, Run.log, Run.queue]

theorem participantAddStep_local (m : MetaClient σ) : IsLocal (participantAddStep m) := by
  intro r row; simp [participantAddStep, Run.log, Run.queue]

theorem participantRemoveStep_local (m : MetaClient σ) : IsLocal (participantRemoveStep m) := by
  intro r row; simp [participantRemoveStep, Run.log, Run.queue]

theorem threadVerifyStep_local (m : MetaClient σ) : IsLocal (threadVerifyStep m) := by
  intro r row; simp [threadVerifyStep, Run.log, Run.queue]

theorem muteStep_local : IsLocal (σ := σ) muteStep := by
  intro r row; simp [muteStep, Run.log]

theorem threadRenameStep_local (m : MetaClient σ) : IsLocal (threadRenameStep m) := by
  intro r row; simp [threadRenameStep, Run.log, Run.queue]

theorem upsertStep_local : IsLocal (σ := σ) upsertStep := by
  intro r row; simp [upsertStep, Run.log]

theorem insertStep_local (m : MetaClient σ) : IsLocal (insertStep m) := by
  intro r row; simp [insertStep, insertMessage, Run.log, Run.queue]

theorem reactionUpsertStep_local (m : MetaClient σ) : IsLocal (reactionUpsertStep m) := by
  intro r row; simp [reactionUpsertStep, Run.log, Run.queue]

theorem reactionDeleteStep_local (m : MetaClient σ) : IsLocal (reactionDeleteStep m) := by
  intro r row; simp [reactionDeleteStep, Run.log, Run.queue]

theorem handleTable_calls (m : MetaClient σ) (s : σ) (tbl : LSTable) :
    (handleTable m s tbl).calls = orderedCalls m s tbl := by
  unfold handleTable orderedCalls orderedCallsWith
  simp only [(foldl_local _ contactInsertStep_local _ _).1,
    (foldl_local _ contactInsertStep_local _ _).2,
    (foldl_local _ (contactVerifyStep_local m) _ _).1,
    (foldl_local _ (contactVerifyStep_local m) _ _).2,
    (foldl_local _ (threadInsertStep_local m) _ _).1,
    (foldl_local _ (threadInsertStep_local m) _ _).2,
    (foldl_local _ (participantAddStep_local m) _ _).1,
    (foldl_local _ (participantAddStep_local m) _ _).2,
    (foldl_local _ (participantRemoveStep_local m) _ _).1,
    (foldl_local _ (participantRemoveStep_local m) _ _).2,
    (foldl_local _ (threadVerifyStep_local m) _ _).1,
    (foldl_local _ (threadVerifyStep_local m) _ _).2,
    (foldl_local _ muteStep_local _ _).1,
    (foldl_local _ muteStep_local _ _).2,
    (foldl_local _ (threadRenameStep_local m) _ _).1,
    (foldl_local _ (threadRenameStep_local m) _ _).2,
    (foldl_local _ upsertStep_local _ _).1,
    (foldl_local _ upsertStep_local _ _).2,
    (foldl_local _ (insertStep_local m) _ _).1,
    (foldl_local _ (insertStep_local m) _ _).2,
    (foldl_local _ (reactionUpsertStep_local m) _ _).1,
    (foldl_local _ (reactionUpsertStep_local m) _ _).2,
    (foldl_local _ (reactionDeleteStep_local m) _ _).1,
    List.nil_append, List.append_assoc]


theorem listCalls_filterMap_nil {α β : Type} (step : Run σ → α → Run σ) (f : Call → Option β)
    (h : ∀ s row, (step { state := s, calls := [] } row).calls.filterMap f = [])
    (rows : List α) : ∀ s, (listCalls step s rows).filterMap f = [] := by
  induction rows with
  | nil => intro s; rfl
  | cons row rows ih =>
    intro s
    simp only [listCalls, List.filterMap_append, h s row, ih, List.append_nil]

theorem listCalls_related {α β : Type} (step : Run σ → α → Run σ) (f : Call → Option β)
    (R : α → β → Prop)
    (h : ∀ s row, ∃ b, (step { state := s, calls := [] } row).calls.filterMap f = [b] ∧ R row b)
    (rows : List α) : ∀ s, List.Forall₂ R rows ((listCalls step s rows).filterMap f) := by
  induction rows with
  | nil => intro s; exact List.Forall₂.nil
  | cons row rows ih =>
    intro s
    obtain ⟨b, hb, hR⟩ := h s row
    simp only [listCalls, List.filterMap_append, hb, List.singleton_append]
    exact List.Forall₂.cons hR (ih _)

theorem handleTable_resyncsWithInfo (m : MetaClient σ) (s : σ) (tbl : LSTable) :
    resyncsWithInfo (handleTable m s tbl).calls =
      (listCalls (threadInsertStep m)
        (listState (contactVerifyStep m)
          (listState contactInsertStep s tbl.LSDeleteThenInsertContact)
          tbl.LSVerifyContactRowExists)
        tbl.LSDeleteThenInsertThread).filterMap Call.asResyncWithInfo := by
  rw [handleTable_calls]
  unfold orderedCalls orderedCallsWith resyncsWithInfo
  simp only [List.filterMap_append]
  rw [listCalls_filterMap_nil contactInsertStep, listCalls_filterMap_nil (contactVerifyStep m),
    listCalls_filterMap_nil (participantAddStep m),
    listCalls_filterMap_nil (participantRemoveStep m),
    listCalls_filterMap_nil (threadVerifyStep m), listCalls_filterMap_nil muteStep,
    listCalls_filterMap_nil (threadRenameStep m), listCalls_filterMap_nil upsertStep,
    listCalls_filterMap_nil (insertStep m), listCalls_filterMap_nil (reactionUpsertStep m),
    listCalls_filterMap_nil (reactionDeleteStep m)]
  · simp
  all_goals intro s0 row
  · simp [reactionDeleteStep, Run.log, Run.queue, Call.asResyncWithInfo]
  · simp [reactionUpsertStep, Run.log, Run.queue, Call.asResyncWithInfo]
  · simp [insertStep, insertMessage, Run.log, Run.queue, Call.asResyncWithInfo]
  · simp [upsertStep, Run.log, Call.asResyncWithInfo]
  · simp [threadRenameStep, Run.log, Run.queue, Call.asResyncWithInfo]
  · simp [muteStep, Run.log, Call.asResyncWithInfo]
  · simp [threadVerifyStep, Run.log, Run.queue, Call.asResyncWithInfo]
  · simp [participantRemoveStep, Run.log, Run.queue, Call.asResyncWithInfo]
  · simp [participantAddStep, Run.log, Run.queue, Call.asResyncWithInfo]
  · simp only [contactVerifyStep, Run.log]
    split <;> simp [Call.asResyncWithInfo]
  · simp [contactInsertStep, Run.log, Call.asResyncWithInfo]


theorem handleTable_resyncsWithFetch (m : MetaClient σ) (s : σ) (tbl : LSTable) :
    resyncsWithFetch (handleTable m s tbl).calls =
      (listCalls (threadVerifyStep m)
        (listState (participantRemoveStep m)
          (listState (participantAddStep m)
            (listState (threadInsertStep m)
              (listState (contactVerifyStep m)
                (listState contactInsertStep s tbl.LSDeleteThenInsertContact)
                tbl.LSVerifyContactRowExists)
              tbl.LSDeleteThenInsertThread)
            tbl.LSAddParticipantIdToGroupThread)
          tbl.LSRemoveParticipantFromThread)
        tbl.LSVerifyThreadExists).filterMap Call.asResyncWithFetch := by
  rw [handleTable_calls]
  unfold orderedCalls orderedCallsWith resyncsWithFetch
  simp only [List.filterMap_append]
  rw [listCalls_filterMap_nil contactInsertStep, listCalls_filterMap_nil (contactVerifyStep m),
    listCalls_filterMap_nil (threadInsertStep m),
    listCalls_filterMap_nil (participantAddStep m),
    listCalls_filterMap_nil (participantRemoveStep m), listCalls_filterMap_nil muteStep,
    listCalls_filterMap_nil (threadRenameStep m), listCalls_filterMap_nil upsertStep,
    listCalls_filterMap_nil (insertStep m), listCalls_filterMap_nil (reactionUpsertStep m),
    listCalls_filterMap_nil (reactionDeleteStep m)]
  · simp
  all_goals intro s0 row
  · simp [reactionDeleteStep, Run.log, Run.queue, Call.asResyncWithFetch]
  · simp [reactionUpsertStep, Run.log, Run.queue, Call.asResyncWithFetch]
  · simp [insertStep, insertMessage, Run.log, Run.queue, Call.asResyncWithFetch]
  · simp [upsertStep, Run.log, Call.asResyncWithFetch]
  · simp [threadRenameStep, Run.log, Run.queue, Call.asResyncWithFetch]
  · simp [muteStep, Run.log, Call.asResyncWithFetch]
  · simp [participantRemoveStep, Run.log, Run.queue, Call.asResyncWithFetch]
  · simp [participantAddStep, Run.log, Run.queue, Call.asResyncWithFetch]
  · simp [threadInsertStep, Run.log, Run.queue, Call.asResyncWithFetch]
  · simp only [contactVerifyStep, Run.log]
    split <;> simp [Call.asResyncWithFetch]
  · simp [contactInsertStep, Run.log, Call.asResyncWithFetch]

theorem listCalls_log_only {α : Type} (step : Run σ → α → Run σ)
    (h : ∀ s row, (step { state := s, calls := [] } row).state = s ∧
      ∀ c ∈ (step { state := s, calls := [] } row).calls, c.isLog = true)
    (rows : List α) :
    ∀ s, listState step s rows = s ∧ ∀ c ∈ listCalls step s rows, c.isLog = true := by
  induction rows with
  | nil => intro s; simp [listState, listCalls]
  | cons row rows ih =>
    intro s
    obtain ⟨hs, hc⟩ := h s row
    simp only [listState, listCalls, hs, List.mem_append]
    refine ⟨(ih s).1, ?_⟩
    intro c hcm
    rcases hcm with h1 | h1
    · exact hc c h1
    · exact (ih s).2 c h1

theorem GetChatInfoFunc.call_result (m : MetaClient σ) (f : GetChatInfoFunc) (s : σ)
    (portal : Portal) :
    (f.call m s portal).1 = (some { Type_ := some f.roomType, Members := some f.members }, none) := by
  unfold GetChatInfoFunc.call
  by_cases hp : portal.MXID = ""
  · simp only [hp, if_true]
    split <;> rfl
  · simp only [hp, if_false]

/-- C8 (counterexample).  The table batch holds one reaction-upsert row on a
message that the batch upserts; `WrapMessages`, called before the reaction
loops, takes the row out of the table.  `handleTable` then makes the log
statement of the upserted range and nothing else: no event is queued for the
reaction-upsert row of the batch, and the calls are not the concatenation
taken over the lists of the batch as received. -/
theorem handleTable_upserted_reaction_dropped :
    upsertedReactionTable.LSUpsertReaction =
      [{ ThreadKey := 9, MessageId := "mid.3", ActorId := 6, Reaction := "+1" }] ∧
    (handleTable (scripted alice upsertingScript) 0 upsertedReactionTable).calls =
      [Call.Log .Trace "UpsertMessages" [("thread_id", .int 9)]] ∧
    queuedEvents (handleTable (scripted alice upsertingScript) 0 upsertedReactionTable).calls =
      [] ∧
    (handleTable (scripted alice upsertingScript) 0 upsertedReactionTable).calls ≠
      orderedCallsOfBatch (scripted alice upsertingScript) 0 upsertedReactionTable := by
  refine ⟨rfl, ?_, ?_, ?_⟩ <;> decide

/-- C8 (amended).  The calls made by `handleTable` for a table batch are the
concatenation, in the fixed order contact delete-then-insert,
contact-existence-verify, thread delete-then-insert, participant-add,
participant-remove, thread-existence-verify, mute-setting, thread-rename,
message upserts, message inserts, reaction-upsert, reaction-delete, of the
calls made for each list, the rows of a list being handled in list order; the
two reaction lists are those of the table as `WrapMessages` leaves it, every
other list is that of the batch as received.  The mute-setting rows and the
message upserts cause log statements only and leave the world unchanged. -/
theorem handleTable_fixed_order (m : MetaClient σ) (s : σ) (tbl : LSTable) :
    (handleTable m s tbl).calls = orderedCalls m s tbl ∧
    (∀ (s0 : σ) (rows : List LSUpdateThreadMuteSetting),
      listState muteStep s0 rows = s0 ∧ ∀ c ∈ listCalls muteStep s0 rows, c.isLog = true) ∧
    (∀ (s0 : σ) (rows : List UpsertMessages),
      listState upsertStep s0 rows = s0 ∧ ∀ c ∈ listCalls upsertStep s0 rows, c.isLog = true) := by
  refine ⟨handleTable_calls m s tbl, ?_, ?_⟩
  · intro s0 rows
    exact listCalls_log_only muteStep (fun s1 row => by simp [muteStep, Run.log, Call.isLog]) rows s0
  · intro s0 rows
    exact listCalls_log_only upsertStep
      (fun s1 row => by simp [upsertStep, Run.log, Call.isLog]) rows s0

/-- C9.  The chat-resync events queued for the thread delete-then-insert rows
(and for the thread-existence-verify rows) correspond to the rows one to one,
in order; for a row whose thread type is one-to-one, the chat info of its
event (for a verify row: the chat info returned by its fetch function, on any
portal and in any world) has room type direct-message and exactly two
members, both joined: first the local login, then the counterpart
`senderFromID` of the thread key. -/
theorem handleTable_one_to_one_members (m : MetaClient σ) (s : σ) (tbl : LSTable) :
    List.Forall₂
      (fun (thread : LSDeleteThenInsertThread) (evt : ChatResync) =>
        thread.ThreadType = .ONE_TO_ONE →
          evt.EventMeta.PortalKey = { ID := m.MakePortalID thread.ThreadKey } ∧
          ∃ info, evt.ChatInfo = some info ∧ info.Type_ = some .RoomTypeDM ∧
            info.Members = some
              { Members :=
                  [{ EventSender :=
                       { IsFromMe := true, Sender := m.login.ID, SenderLogin := m.login.ID }
                     Membership := .MembershipJoin },
                   { EventSender := senderFromID m thread.ThreadKey
                     Membership := .MembershipJoin }] })
      tbl.LSDeleteThenInsertThread (resyncsWithInfo (handleTable m s tbl).calls) ∧
    List.Forall₂
      (fun (thread : LSVerifyThreadExists) (evt : ChatResync) =>
        thread.ThreadType = .ONE_TO_ONE →
          evt.EventMeta.PortalKey = { ID := m.MakePortalID thread.ThreadKey } ∧
          ∃ f, evt.GetChatInfoFunc = some f ∧ evt.ChatInfo = none ∧
            ∀ (s0 : σ) (portal : Portal), ∃ info,
              (f.call m s0 portal).1 = (some info, none) ∧ info.Type_ = some .RoomTypeDM ∧
              info.Members = some
                { Members :=
                    [{ EventSender :=
                         { IsFromMe := true, Sender := m.login.ID, SenderLogin := m.login.ID }
                       Membership := .MembershipJoin },
                     { EventSender := senderFromID m thread.ThreadKey
                       Membership := .MembershipJoin }] })
      tbl.LSVerifyThreadExists (resyncsWithFetch (handleTable m s tbl).calls) := by
  constructor
  · rw [handleTable_resyncsWithInfo]
    refine listCalls_related (threadInsertStep m) Call.asResyncWithInfo _
      (fun s0 thread => ⟨_, rfl, ?_⟩) _ _
    intro hType
    simp [roomTypeAndMembers, hType, selfMember]
  · rw [handleTable_resyncsWithFetch]
    refine listCalls_related (threadVerifyStep m) Call.asResyncWithFetch _
      (fun s0 thread => ⟨_, rfl, ?_⟩) _ _
    intro hType
    refine ⟨rfl, _, rfl, rfl, ?_⟩
    intro s1 portal
    refine ⟨_, GetChatInfoFunc.call_result m _ s1 portal, ?_, ?_⟩ <;>
      simp [roomTypeAndMembers, hType, selfMember]

/-- C10.  The chat-resync events queued for the thread delete-then-insert
rows correspond to the rows one to one, in order.  The event of a row whose
thread type is group has room type group, a member list made of the local
login alone, joined, the thread name and description of the row as name and
topic, and the flag to create the portal; for a thread type that is neither
one-to-one nor group the room type is the default one, with the same
single-member list. -/
theorem handleTable_group_thread (m : MetaClient σ) (s : σ) (tbl : LSTable) :
    List.Forall₂
      (fun (thread : LSDeleteThenInsertThread) (evt : ChatResync) =>
        evt.EventMeta.Type_ = .RemoteEventChatResync ∧
        evt.EventMeta.PortalKey = { ID := m.MakePortalID thread.ThreadKey } ∧
        evt.EventMeta.CreatePortal = true ∧
        (thread.ThreadType = .GROUP_THREAD →
          evt.ChatInfo = some
            { Name := some thread.ThreadName
              Topic := some thread.ThreadDescription
              Members := some
                { Members :=
                    [{ EventSender :=
                         { IsFromMe := true, Sender := m.login.ID, SenderLogin := m.login.ID }
                       Membership := .MembershipJoin }] }
              Type_ := some .RoomTypeGroupDM }) ∧
        (thread.ThreadType ≠ .ONE_TO_ONE → thread.ThreadType ≠ .GROUP_THREAD →
          evt.ChatInfo = some
            { Name := some thread.ThreadName
              Topic := some thread.ThreadDescription
              Members := some
                { Members :=
                    [{ EventSender :=
                         { IsFromMe := true, Sender := m.login.ID, SenderLogin := m.login.ID }
                       Membership := .MembershipJoin }] }
              Type_ := some .RoomTypeDefault }))
      tbl.LSDeleteThenInsertThread (resyncsWithInfo (handleTable m s tbl).calls) := by
  rw [handleTable_resyncsWithInfo]
  refine listCalls_related (threadInsertStep m) Call.asResyncWithInfo _
    (fun s0 thread => ⟨_, rfl, rfl, rfl, rfl, ?_, ?_⟩) _ _
  · intro hType
    simp [roomTypeAndMembers, hType, selfMember]
  · intro h1 h2
    simp [roomTypeAndMembers, h1, h2, selfMember]

/-! ## Reactions, lazy fetch, ingestion worker, contacts -/

/-- C11.  For a table whose only rows are one reaction-upsert row and one
reaction-delete row for the same thread, message and actor (so that
`WrapMessages` finds no message and leaves the table as it is), the events queued
by `handleTable` are exactly two, in this order: a reaction event, then a
reaction-remove event, with the same portal key, target message and sender
`senderFromID` of the actor, both with the emoji id "reaction"; the first
carries the reaction of the row as emoji. -/
theorem handleTable_reaction_upsert_delete (m : MetaClient σ) (s : σ)
    (upsert : LSUpsertReaction) (delete : LSDeleteReaction)
    (hWrap : m.WrapMessages { LSUpsertReaction := [upsert], LSDeleteReaction := [delete] } =
      (([], []), { LSUpsertReaction := [upsert], LSDeleteReaction := [delete] }))
    (hThread : delete.ThreadKey = upsert.ThreadKey)
    (hMessage : delete.MessageId = upsert.MessageId)
    (hActor : delete.ActorId = upsert.ActorId) :
    queuedEvents
        (handleTable m s { LSUpsertReaction := [upsert], LSDeleteReaction := [delete] }).calls =
      [.Simple
        { Type_ := .RemoteEventReaction
          Sender := senderFromID m upsert.ActorId
          PortalKey := { ID := FormatInt upsert.ThreadKey }
          TargetMessage := upsert.MessageId
          EmojiID := "reaction"
          Emoji := upsert.Reaction },
       .Simple
        { Type_ := .RemoteEventReactionRemove
          Sender := senderFromID m upsert.ActorId
          PortalKey := { ID := FormatInt upsert.ThreadKey }
          TargetMessage := upsert.MessageId
          EmojiID := "reaction" }] := by
  simp [handleTable, hWrap, reactionUpsertStep, reactionDeleteStep, Run.log, Run.queue,
    queuedEvents, Call.asQueuedEvent, hThread, hMessage, hActor]

/-- C11 (witness).  The table `reactionTable` in the scripted world. -/
theorem handleTable_reaction_upsert_delete_witness :
    queuedEvents (handleTable (scripted alice {}) 0 reactionTable).calls =
      [.Simple
        { Type_ := .RemoteEventReaction
          Sender := { IsFromMe := false, Sender := "6", SenderLogin := "6" }
          PortalKey := { ID := "9" }
          TargetMessage := "mid.3"
          EmojiID := "reaction"
          Emoji := "+1" },
       .Simple
        { Type_ := .RemoteEventReactionRemove
          Sender := { IsFromMe := false, Sender := "6", SenderLogin := "6" }
          PortalKey := { ID := "9" }
          TargetMessage := "mid.3"
          EmojiID := "reaction" }] :=
  handleTable_reaction_upsert_delete (scripted alice {}) 0
    { ThreadKey := 9, MessageId := "mid.3", ActorId := 6, Reaction := "+1" }
    { ThreadKey := 9, MessageId := "mid.3", ActorId := 6 } rfl rfl rfl rfl

theorem GetChatInfoFunc.call_unbound (m : MetaClient σ) (f : GetChatInfoFunc) (s : σ)
    (portal : Portal) (h : portal.MXID = "") :
    requests (f.call m s portal).2.calls =
      [Call.ExecuteTasks [Task.CreateThreadTask f.thread.ThreadKey 0 0 1 0 0]] := by
  unfold GetChatInfoFunc.call
  simp only [h, if_true]
  split <;> simp [requests, Run.log, Call.isLog]

theorem GetChatInfoFunc.call_bound (m : MetaClient σ) (f : GetChatInfoFunc) (s : σ)
    (portal : Portal) (h : portal.MXID ≠ "") :
    (f.call m s portal).2.state = s ∧ (f.call m s portal).2.calls = [] := by
  simp [GetChatInfoFunc.call, h]

theorem GetChatInfoFunc.callTimes_bound (m : MetaClient σ) (f : GetChatInfoFunc)
    (portal : Portal) (h : portal.MXID ≠ "") (n : Nat) :
    ∀ r : Run σ, (f.callTimes m portal n r).state = r.state ∧
      (f.callTimes m portal n r).calls = r.calls := by
  induction n with
  | zero => intro r; exact ⟨rfl, rfl⟩
  | succ n ih =>
    intro r
    obtain ⟨hs, hc⟩ := GetChatInfoFunc.call_bound m f r.state portal h
    simp only [GetChatInfoFunc.callTimes, hs, hc, List.append_nil]
    exact ih _

/-- C12.  The chat-resync events queued for the thread-existence-verify rows
correspond to the rows one to one, in order, and each carries a fetch
function.  Invoked on a portal with an empty room id, in any world, the
function makes exactly one request: the submission of the "create thread"
task for the thread key of the row with `SyncGroup` set.  Invoked on a portal
with a room it makes no call and leaves the world unchanged, and so does any
number of invocations in a row.  In both cases it returns a nil error, also
when the submission failed, and a chat info holding only the room type and the
member list derived from the row. -/
theorem handleTable_lazy_fetch (m : MetaClient σ) (s : σ) (tbl : LSTable) :
    List.Forall₂
      (fun (thread : LSVerifyThreadExists) (evt : ChatResync) =>
        ∃ f, evt.GetChatInfoFunc = some f ∧ evt.ChatInfo = none ∧
          ∀ (s0 : σ) (portal : Portal),
            (f.call m s0 portal).1 =
              (some { Name := none, Topic := none
                      Members := some (roomTypeAndMembers m thread.ThreadType thread.ThreadKey).2
                      Type_ := some (roomTypeAndMembers m thread.ThreadType thread.ThreadKey).1 },
                none) ∧
            (portal.MXID = "" →
              requests (f.call m s0 portal).2.calls =
                [Call.ExecuteTasks [Task.CreateThreadTask thread.ThreadKey 0 0 1 0 0]]) ∧
            (portal.MXID ≠ "" →
              (f.call m s0 portal).2.state = s0 ∧ (f.call m s0 portal).2.calls = [] ∧
              ∀ n, (f.callTimes m portal n { state := s0, calls := [] }).state = s0 ∧
                (f.callTimes m portal n { state := s0, calls := [] }).calls = []))
      tbl.LSVerifyThreadExists (resyncsWithFetch (handleTable m s tbl).calls) := by
  rw [handleTable_resyncsWithFetch]
  refine listCalls_related (threadVerifyStep m) Call.asResyncWithFetch _
    (fun s0 thread => ⟨_, rfl, ?_⟩) _ _
  refine ⟨_, rfl, rfl, ?_⟩
  intro s1 portal
  refine ⟨GetChatInfoFunc.call_result m _ s1 portal, ?_, ?_⟩
  · intro h
    exact GetChatInfoFunc.call_unbound m _ s1 portal h
  · intro h
    obtain ⟨hs, hc⟩ := GetChatInfoFunc.call_bound m
      { thread := thread, roomType := (roomTypeAndMembers m thread.ThreadType thread.ThreadKey).1
        members := (roomTypeAndMembers m thread.ThreadType thread.ThreadKey).2 } s1 portal h
    exact ⟨hs, hc, fun n => GetChatInfoFunc.callTimes_bound m _ portal h n _⟩

theorem handleMetaEvent_local (m : MetaClient σ) : IsLocal (handleMetaEvent m) := by
  intro r evt
  cases evt <;> simp [handleMetaEvent, Run.log]

theorem handleMetaEventLoop_until_nil (m : MetaClient σ) (post : List (Option RawEvent))
    (events : List RawEvent) :
    ∀ r : Run σ, handleMetaEventLoop m r (events.map some ++ none :: post) =
      Run.log (events.foldl (handleMetaEvent m) r) .Debug
        "Received nil event, stopping event handling" [] := by
  induction events with
  | nil => intro r; rfl
  | cons evt events ih =>
    intro r
    simp only [List.map_cons, List.cons_append, handleMetaEventLoop, List.foldl_cons]
    exact ih _

theorem listCalls_append {α : Type} (step : Run σ → α → Run σ) (xs ys : List α) :
    ∀ s, listCalls step s (xs ++ ys) =
      listCalls step s xs ++ listCalls step (listState step s xs) ys := by
  induction xs with
  | nil => intro s; simp [listCalls, listState]
  | cons x xs ih =>
    intro s
    rw [List.cons_append]
    simp only [listCalls, listState]
    rw [ih, List.append_assoc]

/-- C13.  When the items put on the queue are the events `events` followed by
the stop sentinel and by anything else, the worker loop handles the events
before the sentinel, in arrival order and each in the world left by the
previous one, logs that it stops and ends: the result does not depend on what
follows the sentinel.  An event of unrecognized shape only causes a log
statement and leaves the world unchanged, and the events after it are handled
as well. -/
theorem handleMetaEventLoop_stops_at_sentinel (m : MetaClient σ) (s : σ)
    (events : List RawEvent) (post : List (Option RawEvent)) :
    handleMetaEventLoop m { state := s, calls := [] } (events.map some ++ none :: post) =
      Run.log (events.foldl (handleMetaEvent m) { state := s, calls := [] }) .Debug
        "Received nil event, stopping event handling" [] ∧
    (handleMetaEventLoop m { state := s, calls := [] } (events.map some ++ none :: post)).calls =
      listCalls (handleMetaEvent m) s events ++
        [Call.Log .Debug "Received nil event, stopping event handling" []] ∧
    (handleMetaEventLoop m { state := s, calls := [] } (events.map some ++ none :: post)).state =
      listState (handleMetaEvent m) s events ∧
    (∀ (r : Run σ) (goType : String),
      handleMetaEvent m r (.Other goType) =
        r.log .Warn "Unrecognized event type from messagix" [("event_type", .str goType)]) ∧
    (∀ (before after : List RawEvent) (goType : String),
      listCalls (handleMetaEvent m) s (before ++ RawEvent.Other goType :: after) =
        listCalls (handleMetaEvent m) s before ++
          [Call.Log .Warn "Unrecognized event type from messagix"
            [("event_type", .str goType)]] ++
          listCalls (handleMetaEvent m) (listState (handleMetaEvent m) s before) after) := by
  have hLoop := handleMetaEventLoop_until_nil m post events { state := s, calls := [] }
  obtain ⟨hc, hs⟩ := foldl_local (handleMetaEvent m) (handleMetaEvent_local m) events
    { state := s, calls := [] }
  refine ⟨hLoop, ?_, ?_, fun r goType => rfl, ?_⟩
  · rw [hLoop]; simp [Run.log, hc]
  · rw [hLoop]; simp [Run.log, hs]
  · intro before after goType
    rw [listCalls_append]
    simp [listCalls, listState, handleMetaEvent, Run.log]

/-- C14 (evaluation at the failing input).  For a table holding one contact
delete-then-insert row, `handleTable` only logs the row: no ghost is fetched
and no display name is updated, although the ghost lookup would succeed.  The
same contact in a contact-existence-verify row is fetched and updated. -/
theorem handleTable_contact_insert_only_logged :
    (handleTable (scripted alice {}) 0
        { LSDeleteThenInsertContact := [{ Id := 5, Name := "Eve" }] }).calls =
      [Call.Log .Warn "LSDeleteThenInsertContact" [("contact_id", .int 5)]] ∧
    (scripted alice {}).GetGhostByID 0 ((scripted alice {}).MakeUserID 5) = (none, 0) ∧
    (handleTable (scripted alice {}) 0
        { LSVerifyContactRowExists := [{ ContactId := 5, Name := "Eve" }] }).calls =
      [Call.Log .Warn "LSVerifyContactRowExists" [("contact_id", .int 5)],
        Call.GetGhostByID "5", Call.UpdateInfo "5" { Name := some "Eve" }] := by
  refine ⟨?_, rfl, ?_⟩ <;> decide

theorem SetLastReadTS_row_monotone (u : User) (portal : DBPortalKey) (ts : Time) (stored : Int)
    (h : u.rows u.MXID portal = some stored) :
    ∃ kept, (u.SetLastReadTS none portal ts).rows u.MXID portal = some kept ∧ stored ≤ kept := by
  by_cases hlt : stored < ts.UnixMilli
  · exact ⟨ts.UnixMilli, by simp [User.SetLastReadTS, execSetLastReadTS, h, hlt], le_of_lt hlt⟩
  · exact ⟨stored, by simp [User.SetLastReadTS, execSetLastReadTS, h, hlt], le_refl _⟩

theorem GetLastReadTS_after_set (u : User) (portal : DBPortalKey) (ts : Time)
    (dbErr : Option GoError) :
    ((u.SetLastReadTS none portal ts).GetLastReadTS dbErr portal).1 = ts := by
  simp [User.SetLastReadTS, User.GetLastReadTS]

/-- C15 (evaluation at the failing input).  After a successful
`SetLastReadTS` with the time 2000 ms followed by a successful `SetLastReadTS`
with the older time 1000 ms, the stored row keeps 2000 but `GetLastReadTS`
returns the older time 1000 ms from the cache. -/
theorem GetLastReadTS_returns_older_write :
    (((freshUser.SetLastReadTS none portal42 (.unixMilli 2000)).SetLastReadTS none portal42
        (.unixMilli 1000)).GetLastReadTS none portal42).1 = .unixMilli 1000 ∧
    ((freshUser.SetLastReadTS none portal42 (.unixMilli 2000)).SetLastReadTS none portal42
        (.unixMilli 1000)).rows "@alice:example.org" portal42 = some 2000 := by
  constructor <;> decide

/-! ## The sender check and the retry loop -/

theorem retryLoop_calls_extend (m : MetaClient σ) (tasks : List Task) (fuel : Nat) :
    ∀ v : LoopVars σ, ∃ rest, (retryLoop m tasks fuel v).run.calls = v.run.calls ++ rest := by
  induction fuel with
  | zero => intro v; exact ⟨[], by simp [retryLoop]⟩
  | succ n ih =>
    intro v
    unfold retryLoop
    split
    · split
      · rename_i e s1 hW
        obtain ⟨rest, h⟩ := ih
          { resp := v.resp, err := some e, retries := v.retries + 1
            run := { state := s1
                     calls := v.run.calls ++ [Call.WaitUntilCanSendMessages 15] } }
        exact ⟨Call.WaitUntilCanSendMessages 15 :: rest, by rw [h]; simp⟩
      · split
        · exact ⟨[Call.WaitUntilCanSendMessages 15, Call.ExecuteTasks tasks], rfl⟩
        · rename_i resp e s2 hE
          obtain ⟨rest, h⟩ := ih
            { resp := resp, err := some e, retries := v.retries + 1
              run := { state := s2
                       calls := v.run.calls ++
                         [Call.WaitUntilCanSendMessages 15, Call.ExecuteTasks tasks] } }
          exact ⟨Call.WaitUntilCanSendMessages 15 :: Call.ExecuteTasks tasks :: rest,
            by rw [h]; simp⟩
    · exact ⟨[], by simp⟩

theorem retryLoop_waits_first (m : MetaClient σ) (tasks : List Task) (fuel : Nat)
    (v : LoopVars σ) (hRetries : v.retries < 5) :
    ∃ rest, (retryLoop m tasks (fuel + 1) v).run.calls =
      v.run.calls ++ Call.WaitUntilCanSendMessages 15 :: rest := by
  unfold retryLoop
  simp only [if_pos hRetries]
  split
  · rename_i e s1 hW
    obtain ⟨rest, h⟩ := retryLoop_calls_extend m tasks fuel
      { resp := v.resp, err := some e, retries := v.retries + 1
        run := { state := s1, calls := v.run.calls ++ [Call.WaitUntilCanSendMessages 15] } }
    exact ⟨rest, by rw [h]; simp⟩
  · split
    · exact ⟨[Call.ExecuteTasks tasks], by simp⟩
    · rename_i resp e s2 hE
      obtain ⟨rest, h⟩ := retryLoop_calls_extend m tasks fuel
        { resp := resp, err := some e, retries := v.retries + 1
          run := { state := s2
                   calls := v.run.calls ++
                     [Call.WaitUntilCanSendMessages 15, Call.ExecuteTasks tasks] } }
      exact ⟨Call.ExecuteTasks tasks :: rest, by rw [h]; simp⟩

theorem retryLoop_submits_after_wait (m : MetaClient σ) (tasks : List Task) (fuel : Nat)
    (v : LoopVars σ) (hRetries : v.retries < 5)
    (hWait : (m.WaitUntilCanSendMessages v.run.state 15).1 = none) :
    ∃ rest, (retryLoop m tasks (fuel + 1) v).run.calls =
      v.run.calls ++ Call.WaitUntilCanSendMessages 15 :: Call.ExecuteTasks tasks :: rest := by
  unfold retryLoop
  simp only [if_pos hRetries]
  split
  · rename_i e s1 hW
    rw [hW] at hWait
    cases hWait
  · split
    · exact ⟨[], by simp⟩
    · rename_i resp e s2 hE
      obtain ⟨rest, h⟩ := retryLoop_calls_extend m tasks fuel
        { resp := resp, err := some e, retries := v.retries + 1
          run := { state := s2
                   calls := v.run.calls ++
                     [Call.WaitUntilCanSendMessages 15, Call.ExecuteTasks tasks] } }
      exact ⟨rest, by rw [h]; simp⟩

theorem HandleMatrixMessage_run (m : MetaClient σ) (s s1 : σ) (msg : MatrixMessage)
    (content : MessageEventContent) (thread otid : Int) (tasks : List Task) (v : LoopVars σ)
    (hParsed : msg.Event.Parsed = .Message content)
    (hNotice : content.MsgType ≠ MsgNotice)
    (hThread : Atoi msg.Portal.PortalKey.ID = .ok thread)
    (hConv : m.ToMeta s msg.Event content false thread msg.Portal = ((tasks, otid, none), s1))
    (hLoop : retryLoop m tasks 5
      { resp := none, err := none, retries := 0
        run := { state := s1
                 calls := [Call.ToMeta msg.Event content false thread msg.Portal] } } = v) :
    (HandleMatrixMessage m s msg).run = v.run := by
  rcases hI : inspectResponse v.resp v.err (FormatInt otid) with ⟨msgID, _ | rejected⟩
  · rw [HandleMatrixMessage_not_rejected m s s1 msg content thread otid tasks v msgID
      hParsed hNotice hThread hConv hLoop hI]
    split <;> rfl
  · rw [HandleMatrixMessage_rejected m s s1 msg content thread otid tasks v msgID rejected
      hParsed hNotice hThread hConv hLoop hI]

/-- C16.  For a message that passed the content-type, thread-id and conversion
steps, whatever its sender: the calls made and the world reached are those of
the retry loop, which the sender check follows; the first call after the
conversion is a readiness wait; in every iteration of the loop whose readiness
wait succeeds the tasks are submitted right after it.  In particular, when the
first wait and the first submission succeed without a correlated failure row
and the sender is not the active login, the call returns the sender-mismatch
error after the tasks have been submitted. -/
theorem HandleMatrixMessage_sender_check_after_loop (m : MetaClient σ) (s s1 : σ)
    (msg : MatrixMessage) (content : MessageEventContent) (thread otid : Int)
    (tasks : List Task)
    (hParsed : msg.Event.Parsed = .Message content)
    (hNotice : content.MsgType ≠ MsgNotice)
    (hThread : Atoi msg.Portal.PortalKey.ID = .ok thread)
    (hConv : m.ToMeta s msg.Event content false thread msg.Portal = ((tasks, otid, none), s1)) :
    (HandleMatrixMessage m s msg).run =
      (retryLoop m tasks 5
        { resp := none, err := none, retries := 0
          run := { state := s1
                   calls := [Call.ToMeta msg.Event content false thread msg.Portal] } }).run ∧
    (∃ rest, (HandleMatrixMessage m s msg).run.calls =
      Call.ToMeta msg.Event content false thread msg.Portal ::
        Call.WaitUntilCanSendMessages 15 :: rest) ∧
    (∀ (fuel : Nat) (v : LoopVars σ), v.retries < 5 →
      (m.WaitUntilCanSendMessages v.run.state 15).1 = none →
      ∃ rest, (retryLoop m tasks (fuel + 1) v).run.calls =
        v.run.calls ++ Call.WaitUntilCanSendMessages 15 :: Call.ExecuteTasks tasks :: rest) ∧
    (∀ (s2 s3 : σ) (resp : Option LSTable),
      m.WaitUntilCanSendMessages s1 15 = (none, s2) →
      m.ExecuteTasks s2 tasks = ((resp, none), s3) →
      (∀ tbl, resp = some tbl →
        (∀ x ∈ tbl.LSMarkOptimisticMessageFailed, x.OTID ≠ FormatInt otid) ∧
        (∀ x ∈ tbl.LSHandleFailedTask, x.OTID ≠ FormatInt otid)) →
      m.login.UserMXID ≠ msg.Event.Sender →
      (HandleMatrixMessage m s msg).outcome =
        .returned none
          (some (.errorString ("sender mismatch with user login: " ++ msg.Event.Sender))) ∧
      (HandleMatrixMessage m s msg).run.calls =
        [Call.ToMeta msg.Event content false thread msg.Portal,
          Call.WaitUntilCanSendMessages 15, Call.ExecuteTasks tasks] ∧
      (HandleMatrixMessage m s msg).run.state = s3) := by
  have hRun := HandleMatrixMessage_run m s s1 msg content thread otid tasks _
    hParsed hNotice hThread hConv rfl
  refine ⟨hRun, ?_, ?_, ?_⟩
  · rw [hRun]
    obtain ⟨rest, h⟩ := retryLoop_waits_first m tasks 4
      { resp := none, err := none, retries := 0
        run := { state := s1
                 calls := [Call.ToMeta msg.Event content false thread msg.Portal] } }
      (Nat.succ_pos 4)
    exact ⟨rest, by rw [h]; rfl⟩
  · intro fuel v hRetries hWait
    exact retryLoop_submits_after_wait m tasks fuel v hRetries hWait
  · intro s2 s3 resp hWait hExec hNoFail hSender
    have hLoop : retryLoop m tasks 5
        { resp := none, err := none, retries := 0
          run := { state := s1
                   calls := [Call.ToMeta msg.Event content false thread msg.Portal] } } =
        { resp := resp, err := none, retries := 0
          run := { state := s3
                   calls := [Call.ToMeta msg.Event content false thread msg.Portal,
                     .WaitUntilCanSendMessages 15, .ExecuteTasks tasks] } } := by
      simp [retryLoop, hWait, hExec]
    have hInsp := inspectResponse_no_failure resp (FormatInt otid) hNoFail none
    have hOut := HandleMatrixMessage_not_rejected m s s1 msg content thread otid tasks _
      (inspectResponse resp none (FormatInt otid)).1 hParsed hNotice hThread hConv hLoop
      (Prod.ext rfl hInsp)
    rw [hOut, if_neg hSender]
    exact ⟨rfl, rfl, rfl⟩

/-- C16 (witness).  A text message whose sender is not the active login, in a
world where the first wait and the first submission succeed: the tasks are
submitted, then the sender-mismatch error is returned. -/
theorem HandleMatrixMessage_sender_check_after_loop_witness :
    (HandleMatrixMessage (scripted alice {}) 0 (textFrom "@mallory:example.org")).outcome =
      .returned none
        (some (.errorString "sender mismatch with user login: @mallory:example.org")) ∧
    (HandleMatrixMessage (scripted alice {}) 0 (textFrom "@mallory:example.org")).run.calls =
      [textCall "@mallory:example.org", Call.WaitUntilCanSendMessages 15,
        Call.ExecuteTasks [Task.converted "send"]] :=
  have h := (HandleMatrixMessage_sender_check_after_loop (scripted alice {}) 0 0
    (textFrom "@mallory:example.org") { MsgType := "m.text", Body := "hello" } 42 7
    [Task.converted "send"] rfl (by decide) rfl rfl).2.2.2 1 1 (some {}) rfl rfl
    (fun tbl h => by cases h; exact ⟨by decide, by decide⟩) (by decide)
  ⟨h.1, h.2.1⟩

end Meta
